import Mathlib

/-!
Verification of the data-cleaning pipeline and statistical-test helpers of the
solar-challenge repository (`src/solar_eda.py`, `app/utils.py`,
`src/comparison_utils.py`).

The central data model is a pandas `DataFrame` of time-indexed sensor
readings.  It is embedded column-major: each column the pipeline touches is a
field of the `DF` structure, `none` when the column is absent from the table
(pandas column presence is table-level) and `some xs` when present, where
`xs` lists the column's cells top to bottom.  A cell is `Option ℚ`: `none`
models a missing value (`NaN`).  Floating-point numbers are idealised as
rationals.  Comparisons against `NaN` are false in pandas, which the
`Option`-aware comparison helpers `vlt` / `vgt` reproduce; `clip` keeps `NaN`
as `NaN`, which `clip0` reproduces.  Timestamps are embedded as the pair of
fields the code reads off them (`dt.hour`, `dt.month`); a missing timestamp
(`NaT`) is `none`.

Fallible stages (the code performs unguarded `df[cols]` lookups that raise
`KeyError` when a column is absent) return `Except String DF`.

The z-score test `|z| > t` with `z = (x - mean) / std`, `std = sqrt(var)`
(population variance, scipy `zscore` default `ddof=0`, `nan_policy='omit'`)
is embedded without square roots: for `var > 0` and `t ≥ 0` it is equivalent
to `t^2 * var < (x - mean)^2`; for `t < 0` it always holds (|z| is
non-negative); for `var = 0` the code's `z` is `0/0 = NaN` and every
comparison against it is false.  `exceedsCell` implements exactly this case
split, and `exceedsCell_iff_abs_zscore` below connects it to the literal
absolute-z-score reading over ℝ.
-/

/-- A cell of a numeric column: `none` is a missing value (`NaN`). -/
abbrev Val := Option ℚ

/-- The fields of a parsed timestamp that the code reads (`dt.hour`,
`dt.month`). -/
structure Ts where
  hour : ℕ
  month : ℕ
deriving DecidableEq, Repr

/-- Column-major embedding of the measurement table: every column the
pipeline touches, `none` when absent from the table.  `nrows` is the length
of the index; in a well-formed table (`DF.WFb`) every present column has
`nrows` cells. -/
@[ext]
structure DF where
  nrows : ℕ
  Timestamp : Option (List (Option Ts))
  GHI : Option (List Val)
  DNI : Option (List Val)
  DHI : Option (List Val)
  ModA : Option (List Val)
  ModB : Option (List Val)
  WS : Option (List Val)
  WSgust : Option (List Val)
  Tamb : Option (List Val)
  RH : Option (List Val)
  Precipitation : Option (List Val)
  Hour : Option (List Val)
  Month : Option (List Val)
  HasRain : Option (List Val)
deriving DecidableEq, Repr

/-- A present column has exactly `n` cells (vacuous for an absent column). -/
def olen {β : Type} (c : Option (List β)) (n : ℕ) : Bool :=
  match c with
  | none => true
  | some xs => xs.length == n

/-- Well-formedness: every present column has `nrows` cells. -/
def DF.WFb (df : DF) : Bool :=
  olen df.Timestamp df.nrows && olen df.GHI df.nrows && olen df.DNI df.nrows &&
  olen df.DHI df.nrows && olen df.ModA df.nrows && olen df.ModB df.nrows &&
  olen df.WS df.nrows && olen df.WSgust df.nrows && olen df.Tamb df.nrows &&
  olen df.RH df.nrows && olen df.Precipitation df.nrows &&
  olen df.Hour df.nrows && olen df.Month df.nrows && olen df.HasRain df.nrows

/-- Pandas `cell < t`: false on a missing value (`NaN < t` is false). -/
def vlt (o : Val) (t : ℚ) : Bool :=
  match o with
  | some x => if x < t then true else false
  | none => false

/-- Pandas `cell > t`: false on a missing value. -/
def vgt (o : Val) (t : ℚ) : Bool :=
  match o with
  | some x => if t < x then true else false
  | none => false

/-- Pandas `clip(lower=0)` on one cell: `NaN` stays `NaN`. -/
def clip0 (o : Val) : Val := o.map (fun x => max x 0)

/-- The non-missing values of a column, in order (what `nan_policy='omit'`
and `dropna()` see). -/
def someVals : List Val → List ℚ
  | [] => []
  | some x :: xs => x :: someVals xs
  | none :: xs => someVals xs

/-- Number of missing cells of a column (`isna().sum()`). -/
def naCount : List Val → ℕ
  | [] => 0
  | none :: xs => naCount xs + 1
  | some _ :: xs => naCount xs

/-- Mean of the non-missing values (0 when there are none; that degenerate
value is never observed because an all-missing column yields no `some` cell
for the z-test to fire on). -/
def meanOf (xs : List Val) : ℚ :=
  (someVals xs).sum / (someVals xs).length

/-- Population variance (`ddof=0`, scipy `zscore` default) of the
non-missing values. -/
def varOf (xs : List Val) : ℚ :=
  ((someVals xs).map (fun x => (x - meanOf xs) ^ 2)).sum / (someVals xs).length

/-- The code's per-cell test `|z| > t` with `z = (x - mean)/sqrt(var)`:
false on a missing cell and when `var = 0` (then `z` is `0/0 = NaN`);
otherwise `|z| > t` cleared of the square root. -/
def exceedsCell (t mu vr : ℚ) (o : Val) : Bool :=
  match o with
  | none => false
  | some x =>
    if 0 < vr then
      (if t < 0 then true else (if t ^ 2 * vr < (x - mu) ^ 2 then true else false))
    else false

/-- Per-column z-test results (`np.abs(zscore(col)) > t`, cell by cell). -/
def exCol (t : ℚ) (xs : List Val) : List Bool :=
  xs.map (exceedsCell t (meanOf xs) (varOf xs))

/-- Pointwise disjunction of two boolean columns (`.any(axis=1)` step). -/
def orZip (a b : List Bool) : List Bool := List.zipWith (fun x y => x || y) a b

/-- Three-column pointwise combination (row-wise `.all(axis=1)` /
`.any(axis=1)` over the three irradiance columns). -/
def zipW3 {α β γ δ : Type} (f : α → β → γ → δ) : List α → List β → List γ → List δ
  | a :: as, b :: bs, c :: cs => f a b c :: zipW3 f as bs cs
  | _, _, _ => []

/-- Conditional clamp (`df.loc[fix, cols] = df.loc[fix, cols].clip(lower=0)`):
cells of rows flagged by the mask are clamped at 0, the rest untouched. -/
def applyFix (m : List Bool) (xs : List Val) : List Val :=
  List.zipWith (fun b v => if b then clip0 v else v) m xs

/-- Row filter `df.loc[~mask]`: keep the cells whose mask entry is false,
in order. -/
def keepCol {β : Type} : List Bool → List β → List β
  | b :: m, x :: xs => if b then keepCol m xs else x :: keepCol m xs
  | _, _ => []

/-- Number of false entries of a mask (rows kept by `df.loc[~mask]`). -/
def countFalse (m : List Bool) : ℕ := m.countP (fun b => !b)

/-- Number of true entries of a mask (`int(mask.sum())`, the dropped count). -/
def countTrue (m : List Bool) : ℕ := m.countP (fun b => b)

/-- Stage 1 on one column: `_drop_empty_columns` removes a column whose
missing fraction is at least `thresh`.  On a zero-row table
`isna().mean()` is `NaN` and the comparison is false, so nothing is
dropped. -/
def dropColIf {β : Type} (thresh : ℚ) (c : Option (List (Option β))) : Option (List (Option β)) :=
  match c with
  | none => none
  | some xs =>
    if xs.length = 0 then some xs
    else if thresh ≤ (naCount' xs : ℚ) / xs.length then none
    else some xs
where
  naCount' : List (Option β) → ℕ
    | [] => 0
    | none :: ys => naCount' ys + 1
    | some _ :: ys => naCount' ys

/-- Stage 1, `_drop_empty_columns` (default `thresh = 1.0`): drop every
column whose missing-value fraction is ≥ `thresh`. -/
def dropEmptyColumns (thresh : ℚ) (df : DF) : DF :=
  { df with
    Timestamp := dropColIf thresh df.Timestamp
    GHI := dropColIf thresh df.GHI
    DNI := dropColIf thresh df.DNI
    DHI := dropColIf thresh df.DHI
    ModA := dropColIf thresh df.ModA
    ModB := dropColIf thresh df.ModB
    WS := dropColIf thresh df.WS
    WSgust := dropColIf thresh df.WSgust
    Tamb := dropColIf thresh df.Tamb
    RH := dropColIf thresh df.RH
    Precipitation := dropColIf thresh df.Precipitation
    Hour := dropColIf thresh df.Hour
    Month := dropColIf thresh df.Month
    HasRain := dropColIf thresh df.HasRain }

/-- Night mask: all three irradiance cells below the threshold
(`(df[irr_cols] < threshold).all(axis=1)`). -/
def nightMask (thr : ℚ) (g d h : List Val) : List Bool :=
  zipW3 (fun a b c => vlt a thr && (vlt b thr && vlt c thr)) g d h

/-- Negative mask: some irradiance cell below zero
(`(df[irr_cols] < 0).any(axis=1)`). -/
def negMask (g d h : List Val) : List Bool :=
  zipW3 (fun a b c => vlt a 0 || (vlt b 0 || vlt c 0)) g d h

/-- Daytime mask: some irradiance cell above the threshold
(`(df[irr_cols] > threshold).any(axis=1)`). -/
def dayMask (thr : ℚ) (g d h : List Val) : List Bool :=
  zipW3 (fun a b c => vgt a thr || (vgt b thr || vgt c thr)) g d h

/-- Stage 2, `_zero_night_negatives`: on rows that are night and contain a
negative irradiance cell, clamp the three irradiance columns at 0.  The
unguarded `df[irr_cols]` lookup raises `KeyError` when one of the three
columns is absent. -/
def zeroNightNegatives (thr : ℚ) (df : DF) : Except String DF :=
  match df.GHI, df.DNI, df.DHI with
  | some g, some d, some h =>
    let fix := List.zipWith (fun a b => a && b) (nightMask thr g d h) (negMask g d h)
    .ok { df with GHI := some (applyFix fix g), DNI := some (applyFix fix d),
                  DHI := some (applyFix fix h) }
  | _, _, _ => .error "KeyError: irradiance column absent"

/-- Hour cell derived from a timestamp cell (`df['Timestamp'].dt.hour`,
`NaN` for `NaT`). -/
def hourify (o : Option Ts) : Val := o.map (fun t => ((t.hour : ℕ) : ℚ))

/-- Month cell derived from a timestamp cell (`df['Timestamp'].dt.month`). -/
def monthify (o : Option Ts) : Val := o.map (fun t => ((t.month : ℕ) : ℚ))

/-- The clamping part of `_fix_daytime_negatives`, after the `Hour` column
has been ensured. -/
def dayCore (thr : ℚ) (df : DF) : Except String DF :=
  match df.GHI, df.DNI, df.DHI with
  | some g, some d, some h =>
    let dayNeg := List.zipWith (fun a b => a && b) (dayMask thr g d h) (negMask g d h)
    .ok { df with GHI := some (applyFix dayNeg g), DNI := some (applyFix dayNeg d),
                  DHI := some (applyFix dayNeg h) }
  | _, _, _ => .error "KeyError: irradiance column absent"

/-- Stage 3, `_fix_daytime_negatives`: first derives `Hour` from `Timestamp`
when `Hour` is absent (raising `KeyError` when `Timestamp` is absent too),
then clamps negative irradiance cells of daytime rows at 0. -/
def fixDaytimeNegatives (thr : ℚ) (df : DF) : Except String DF :=
  match df.Hour with
  | some _ => dayCore thr df
  | none =>
    match df.Timestamp with
    | some ts => dayCore thr { df with Hour := some (ts.map hourify) }
    | none => .error "KeyError: Timestamp"

/-- Row mask of `_clip_outliers`: some of the seven channels has
`|z| > z_thresh` (`(np.abs(z) > self.z_thresh).any(axis=1)`). -/
def outlierMask (t : ℚ) (g d h ma mb ws wg : List Val) : List Bool :=
  orZip (exCol t g) (orZip (exCol t d) (orZip (exCol t h) (orZip (exCol t ma)
    (orZip (exCol t mb) (orZip (exCol t ws) (exCol t wg))))))

/-- Stage 4, `_clip_outliers`: z-scores per cell within each of the seven
channels (missing values excluded from the statistic), rows with an
exceeding absolute z-score in some channel dropped, together with the count
of dropped rows.  The `df[_ZCOLS]` lookup raises `KeyError` when one of the
seven channels is absent. -/
def clipOutliers (t : ℚ) (df : DF) : Except String (DF × ℕ) :=
  match df.GHI, df.DNI, df.DHI, df.ModA, df.ModB, df.WS, df.WSgust with
  | some g, some d, some h, some ma, some mb, some ws, some wg =>
    let m := outlierMask t g d h ma mb ws wg
    .ok ({ nrows := countFalse m
           Timestamp := df.Timestamp.map (keepCol m)
           GHI := some (keepCol m g)
           DNI := some (keepCol m d)
           DHI := some (keepCol m h)
           ModA := some (keepCol m ma)
           ModB := some (keepCol m mb)
           WS := some (keepCol m ws)
           WSgust := some (keepCol m wg)
           Tamb := df.Tamb.map (keepCol m)
           RH := df.RH.map (keepCol m)
           Precipitation := df.Precipitation.map (keepCol m)
           Hour := df.Hour.map (keepCol m)
           Month := df.Month.map (keepCol m)
           HasRain := df.HasRain.map (keepCol m) }, countTrue m)
  | _, _, _, _, _, _, _ => .error "KeyError: z-score channel absent"

/-- Insertion into a sorted list of rationals (for the median). -/
def insQ (x : ℚ) : List ℚ → List ℚ
  | [] => [x]
  | y :: ys => if x ≤ y then x :: y :: ys else y :: insQ x ys

/-- Insertion sort of rationals (for the median). -/
def sortQ : List ℚ → List ℚ
  | [] => []
  | x :: xs => insQ x (sortQ xs)

/-- Pandas `Series.median()`: median of the non-missing values, the mean of
the two middle ones for an even count, `NaN` when there are none. -/
def medianOf (xs : List Val) : Val :=
  let v := sortQ (someVals xs)
  if v.length = 0 then none
  else if v.length % 2 = 1 then some (v.getD (v.length / 2) 0)
  else some ((v.getD (v.length / 2 - 1) 0 + v.getD (v.length / 2) 0) / 2)

/-- Pandas `col.fillna(col.median())`: missing cells replaced by the column
median; when the median is itself `NaN` (no non-missing value) `fillna`
leaves the missing cells in place. -/
def fillna (xs : List Val) : List Val :=
  xs.map (fun o =>
    match o with
    | some x => some x
    | none => medianOf xs)

/-- Stage 5, `_impute_median`: for each of the nine key columns that is
present, fill missing values with the column's median. -/
def imputeMedian (df : DF) : DF :=
  { df with
    GHI := df.GHI.map fillna
    DNI := df.DNI.map fillna
    DHI := df.DHI.map fillna
    ModA := df.ModA.map fillna
    ModB := df.ModB.map fillna
    WS := df.WS.map fillna
    WSgust := df.WSgust.map fillna
    Tamb := df.Tamb.map fillna
    RH := df.RH.map fillna }

/-- A `HasRain` cell: `(precipitation > 0).astype(int)`, 0 on missing. -/
def rainCell (o : Val) : Val :=
  some (if vgt o 0 then (1 : ℚ) else 0)

/-- Stage 6, `_engineer_features`: derive `Hour` and `Month` from
`Timestamp` when present, `HasRain` from `Precipitation` when present; a
no-op for absent columns. -/
def engineerFeatures (df : DF) : DF :=
  let df1 :=
    match df.Timestamp with
    | some ts => { df with Hour := some (ts.map hourify), Month := some (ts.map monthify) }
    | none => df
  match df1.Precipitation with
  | some p => { df1 with HasRain := some (p.map rainCell) }
  | none => df1

/-- The cleaner's three configuration parameters (`SolarCleaner.__init__`). -/
structure SolarCleaner where
  z_thresh : ℚ
  impute : Bool
  add_features : Bool
deriving DecidableEq, Repr

/-- The pipeline `SolarCleaner.clean`, with the intermediate table right
after outlier removal exposed (first component) alongside the final result
(second component); stage thresholds are the source defaults. -/
def cleanStages (c : SolarCleaner) (df : DF) : Except String (DF × DF) := do
  let df1 := dropEmptyColumns 1 df
  let df2 ← zeroNightNegatives 1 df1
  let df3 ← fixDaytimeNegatives 1 df2
  let pr ← clipOutliers c.z_thresh df3
  let df5 := if c.impute then imputeMedian pr.1 else pr.1
  let df6 := if c.add_features then engineerFeatures df5 else df5
  return (pr.1, df6)

/-- `SolarCleaner.clean`: the five-stage pipeline over a copy of the input
table. -/
def SolarCleaner.clean (c : SolarCleaner) (df : DF) : Except String DF :=
  (cleanStages c df).map (fun p => p.2)

/-- One call of `clean` with its full effect signature: the caller's table
after the call (unchanged: line 60 copies the argument before the in-place
stages touch it), the cleaner's state after the call (`clean` assigns no
attribute), and the returned table. -/
def cleanCall (c : SolarCleaner) (df : DF) : DF × SolarCleaner × Except String DF :=
  (df, c, c.clean df)

/-- A row of the combined multi-country table, restricted to the two columns
`run_statistical_tests` reads: the `Country` label and the requested
metric's cell. -/
structure CRow where
  country : String
  val : Val
deriving DecidableEq, Repr

/-- Lexicographic comparison of character lists by code point. -/
def leChars : List Char → List Char → Bool
  | [], _ => true
  | _ :: _, [] => false
  | c :: cs, d :: ds =>
    if c.toNat < d.toNat then true
    else if d.toNat < c.toNat then false
    else leChars cs ds

/-- Lexicographic string comparison (the order `groupby` sorts keys in). -/
def leStr (a b : String) : Bool := leChars a.data b.data

/-- Sorted insertion for strings (`groupby` sorts group keys). -/
def insS (x : String) : List String → List String
  | [] => [x]
  | y :: ys => if leStr x y then x :: y :: ys else y :: insS x ys

/-- Insertion sort for strings. -/
def sortS : List String → List String
  | [] => []
  | x :: xs => insS x (sortS xs)

/-- The distinct country labels of the combined table, in the sorted order
`groupby("Country")` produces. -/
def countriesOf (df : List CRow) : List String :=
  sortS (df.map (fun r => r.country)).dedup

/-- One country group's metric values after `dropna()`. -/
def groupVals (df : List CRow) (c : String) : List ℚ :=
  someVals ((df.filter (fun r => r.country == c)).map (fun r => r.val))

/-- The value `run_statistical_tests` returns: the two p-values, a
dictionary carrying an error message, or Python `None` (what the
`comparison_utils` variant returns in its failure paths). -/
inductive TestResult where
  | pvals (anova kruskal : ℚ)
  | err (msg : String)
  | noneRes
deriving DecidableEq, Repr

/-- `run_statistical_tests` of `app/utils.py`.  The two statistics are
library calls (`scipy.stats.f_oneway` / `kruskal`), passed here as
parameters returning either a p-value or a raised exception's message; the
code's `try/except` turns a raise into an error dictionary.  Groups are all
country groups of the table (the `metric in group.columns` guard is
table-level in pandas, hence always true here), each with its missing
values dropped — a group left empty by `dropna` still counts. -/
def runStatisticalTests (anova kruskal : List (List ℚ) → Except String ℚ)
    (df : List CRow) : TestResult :=
  let gs := (countriesOf df).map (groupVals df)
  if gs.length < 2 then .err "Not enough groups for statistical testing."
  else
    match anova gs with
    | .error e => .err e
    | .ok a =>
      match kruskal gs with
      | .error e => .err e
      | .ok k => .pvals a k

/-- The per-country tables of `ComparisonManager.data` restricted to the
requested metric: label and, when the metric column is present, its cells. -/
def cmGroups : List (String × Option (List Val)) → List (List ℚ)
  | [] => []
  | (_, some xs) :: rest => someVals xs :: cmGroups rest
  | (_, none) :: rest => cmGroups rest

/-- `ComparisonManager.run_statistical_tests` of `src/comparison_utils.py`:
prints a warning and returns Python `None` when fewer than two loaded
tables contain the metric column, and `None` again when a library call
raises; p-values otherwise. -/
def cmRunStatisticalTests (anova kruskal : List (List ℚ) → Except String ℚ)
    (data : List (String × Option (List Val))) : TestResult :=
  let vs := cmGroups data
  if vs.length < 2 then .noneRes
  else
    match anova vs with
    | .error _ => .noneRes
    | .ok a =>
      match kruskal vs with
      | .error _ => .noneRes
      | .ok k => .pvals a k

/-- Names for the nine key columns (`_KEYCOLS`) of the imputation stage. -/
inductive KCol where
  | ghi | dni | dhi | moda | modb | ws | wsgust | tamb | rh
deriving DecidableEq, Repr

/-- Selector for the nine key columns. -/
def DF.keyCol (df : DF) : KCol → Option (List Val)
  | .ghi => df.GHI
  | .dni => df.DNI
  | .dhi => df.DHI
  | .moda => df.ModA
  | .modb => df.ModB
  | .ws => df.WS
  | .wsgust => df.WSgust
  | .tamb => df.Tamb
  | .rh => df.RH

/-- Cell `i` of a column list (`none` out of range, only used in range). -/
def cellAt (xs : List Val) (i : ℕ) : Val := xs.getD i none

/-- Specification-side night predicate at row `i`. -/
def nightAtI (thr : ℚ) (g d h : List Val) (i : ℕ) : Bool :=
  vlt (cellAt g i) thr && (vlt (cellAt d i) thr && vlt (cellAt h i) thr)

/-- Specification-side some-negative predicate at row `i`. -/
def negAtI (g d h : List Val) (i : ℕ) : Bool :=
  vlt (cellAt g i) 0 || (vlt (cellAt d i) 0 || vlt (cellAt h i) 0)

/-- Specification-side daytime predicate at row `i`. -/
def dayAtI (thr : ℚ) (g d h : List Val) (i : ℕ) : Bool :=
  vgt (cellAt g i) thr || (vgt (cellAt d i) thr || vgt (cellAt h i) thr)

/-- Specification-side z-test of one channel at row `i`: the cell's absolute
z-score within the column exceeds `t`. -/
def exceedsAt (t : ℚ) (c : Option (List Val)) (i : ℕ) : Bool :=
  match c with
  | some xs => exceedsCell t (meanOf xs) (varOf xs) (cellAt xs i)
  | none => false

/-- Specification-side outlier predicate: row `i` has an exceeding absolute
z-score in at least one of the seven monitored channels. -/
def rowIsOutlier (t : ℚ) (df : DF) (i : ℕ) : Bool :=
  exceedsAt t df.GHI i || (exceedsAt t df.DNI i || (exceedsAt t df.DHI i ||
    (exceedsAt t df.ModA i || (exceedsAt t df.ModB i ||
      (exceedsAt t df.WS i || exceedsAt t df.WSgust i)))))

/-- The row indices surviving the outlier filter, in their original order. -/
def keptIdx (t : ℚ) (df : DF) : List ℕ :=
  (List.range df.nrows).filter (fun i => !(rowIsOutlier t df i))

/-- A column sampled at a list of row indices, in order. -/
def sampleCells {β : Type} (xs : List (Option β)) (idx : List ℕ) : List (Option β) :=
  idx.map (fun i => xs.getD i none)

/-- Concrete tables used by the closed witness and counterexample theorems
below.  `wtNight`: three rows matching the specification's worked example
(night-negative row, daytime row, all-zero night row). -/
def wtNight : DF :=
  { nrows := 3, Timestamp := none
    GHI := some [some (-5), some 800, some 0]
    DNI := some [some (-2), some 700, some 0]
    DHI := some [some (-1), some 300, some 0]
    ModA := none, ModB := none, WS := none, WSgust := none, Tamb := none
    RH := none, Precipitation := none, Hour := none, Month := none, HasRain := none }

/-- Two rows: a daytime row with a negative cell and a night row. -/
def wtDay : DF :=
  { nrows := 2, Timestamp := none
    GHI := some [some 800, some 0]
    DNI := some [some (-2), some 0]
    DHI := some [some 300, some 0]
    ModA := none, ModB := none, WS := none, WSgust := none, Tamb := none
    RH := none, Precipitation := none
    Hour := some [some 13, some 2], Month := none, HasRain := none }

/-- Four rows over the seven channels; with threshold 1 the last GHI value
(10) is an outlier of the input column `[0, 0, 1, 10]`. -/
def wtClip : DF :=
  { nrows := 4, Timestamp := none
    GHI := some [some 0, some 0, some 1, some 10]
    DNI := some [some 0, some 0, some 0, some 0]
    DHI := some [some 0, some 0, some 0, some 0]
    ModA := some [some 0, some 0, some 0, some 0]
    ModB := some [some 0, some 0, some 0, some 0]
    WS := some [some 0, some 0, some 0, some 0]
    WSgust := some [some 0, some 0, some 0, some 0]
    Tamb := none, RH := none, Precipitation := none
    Hour := none, Month := none, HasRain := none }

/-- The table `_clip_outliers` produces from `wtClip` at threshold 1: the
survivor `1` of `[0, 0, 1]` has `|z| = sqrt 2 > 1` when the z-score is
recomputed over the surviving column alone. -/
def wtClipOut : DF :=
  { nrows := 3, Timestamp := none
    GHI := some [some 0, some 0, some 1]
    DNI := some [some 0, some 0, some 0]
    DHI := some [some 0, some 0, some 0]
    ModA := some [some 0, some 0, some 0]
    ModB := some [some 0, some 0, some 0]
    WS := some [some 0, some 0, some 0]
    WSgust := some [some 0, some 0, some 0]
    Tamb := none, RH := none, Precipitation := none
    Hour := none, Month := none, HasRain := none }

/-- Four rows whose first is a GHI outlier at threshold 1 and carries the
only non-missing `Tamb` value, so after outlier removal `Tamb` is entirely
missing and median imputation cannot fill it. -/
def wtImpute : DF :=
  { nrows := 4, Timestamp := none
    GHI := some [some 10, some 0, some 0, some 0]
    DNI := some [some 0, some 0, some 0, some 0]
    DHI := some [some 0, some 0, some 0, some 0]
    ModA := some [some 0, some 0, some 0, some 0]
    ModB := some [some 0, some 0, some 0, some 0]
    WS := some [some 0, some 0, some 0, some 0]
    WSgust := some [some 0, some 0, some 0, some 0]
    Tamb := some [some 7, none, none, none]
    RH := none, Precipitation := none
    Hour := some [some 2, some 13, some 2, some 2], Month := none, HasRain := none }

/-- The cleaner configuration (z-threshold 1, impute, add features) used
with `wtImpute`. -/
def wcImpute : SolarCleaner := { z_thresh := 1, impute := true, add_features := true }

/-- What `clean` makes of `wtImpute`: the outlier row is dropped and `Tamb`
keeps its three missing values. -/
def wtImputeOut : DF :=
  { nrows := 3, Timestamp := none
    GHI := some [some 0, some 0, some 0]
    DNI := some [some 0, some 0, some 0]
    DHI := some [some 0, some 0, some 0]
    ModA := some [some 0, some 0, some 0]
    ModB := some [some 0, some 0, some 0]
    WS := some [some 0, some 0, some 0]
    WSgust := some [some 0, some 0, some 0]
    Tamb := some [none, none, none]
    RH := none, Precipitation := none
    Hour := some [some 13, some 2, some 2], Month := none, HasRain := none }

/-- What a second `clean` makes of `wtImputeOut`: stage 1 now drops the
entirely missing `Tamb` column, so cleaning is not idempotent here. -/
def wtImputeOut2 : DF :=
  { nrows := 3, Timestamp := none
    GHI := some [some 0, some 0, some 0]
    DNI := some [some 0, some 0, some 0]
    DHI := some [some 0, some 0, some 0]
    ModA := some [some 0, some 0, some 0]
    ModB := some [some 0, some 0, some 0]
    WS := some [some 0, some 0, some 0]
    WSgust := some [some 0, some 0, some 0]
    Tamb := none
    RH := none, Precipitation := none
    Hour := some [some 13, some 2, some 2], Month := none, HasRain := none }

/-- A table without a GHI column (the other two irradiance columns are
present), on which the negative-correction stages raise. -/
def wtNoGHI : DF :=
  { nrows := 1, Timestamp := none
    GHI := none
    DNI := some [some 1]
    DHI := some [some 1]
    ModA := none, ModB := none, WS := none, WSgust := none, Tamb := none
    RH := none, Precipitation := none, Hour := none, Month := none, HasRain := none }

/-- A fixed point of `clean`: two well-formed rows with no negatives, no
outliers at threshold 3, no missing values, and feature columns already
consistent with `Timestamp` and `Precipitation`. -/
def wtFix : DF :=
  { nrows := 2
    Timestamp := some [some { hour := 10, month := 5 }, some { hour := 2, month := 5 }]
    GHI := some [some 5, some 0]
    DNI := some [some 2, some 0]
    DHI := some [some 3, some 0]
    ModA := some [some 1, some 2]
    ModB := some [some 4, some 4]
    WS := some [some 1, some 1]
    WSgust := some [some 2, some 3]
    Tamb := some [some 20, some 21]
    RH := some [some 30, some 40]
    Precipitation := some [some 0, some 2]
    Hour := some [some 10, some 2]
    Month := some [some 5, some 5]
    HasRain := some [some 0, some 1] }

/-- The default cleaner configuration (z-threshold 3, impute, features). -/
def wcFix : SolarCleaner := { z_thresh := 3, impute := true, add_features := true }

/-- Two rows over the seven channels whose second row is missing in every
channel. -/
def wtAllMissing : DF :=
  { nrows := 2, Timestamp := none
    GHI := some [some 5, none]
    DNI := some [some 4, none]
    DHI := some [some 3, none]
    ModA := some [some 2, none]
    ModB := some [some 1, none]
    WS := some [some 6, none]
    WSgust := some [some 7, none]
    Tamb := none, RH := none, Precipitation := none
    Hour := none, Month := none, HasRain := none }

/-- A library-test stand-in that always succeeds with p-value 1. -/
def okTest1 : List (List ℚ) → Except String ℚ := fun _ => .ok 1

/-- A library-test stand-in that always succeeds with p-value 2. -/
def okTest2 : List (List ℚ) → Except String ℚ := fun _ => .ok 2

lemma olen_some {β : Type} {xs : List β} {n : ℕ} (h : olen (some xs) n = true) :
    xs.length = n := by
  simpa [olen] using h

lemma getD_map_of_lt {α β : Type} (f : α → β) (xs : List α) (i : ℕ)
    (h : i < xs.length) (da : α) (db : β) :
    (xs.map f).getD i db = f (xs.getD i da) := by
  induction xs generalizing i with
  | nil => simp at h
  | cons x xs ih =>
    cases i with
    | zero => simp
    | succ j => simpa using ih j (by simpa using h)

lemma getD_zipWith_of_lt {α β γ : Type} (f : α → β → γ) (as : List α) (bs : List β)
    (i : ℕ) (h1 : i < as.length) (h2 : i < bs.length) (da : α) (db : β) (dg : γ) :
    (List.zipWith f as bs).getD i dg = f (as.getD i da) (bs.getD i db) := by
  induction as generalizing bs i with
  | nil => simp at h1
  | cons a as ih =>
    cases bs with
    | nil => simp at h2
    | cons b bs =>
      cases i with
      | zero => simp
      | succ j => simpa using ih bs j (by simpa using h1) (by simpa using h2)

lemma length_zipW3 {α β γ δ : Type} (f : α → β → γ → δ) (as : List α) (bs : List β)
    (cs : List γ) :
    (zipW3 f as bs cs).length = min as.length (min bs.length cs.length) := by
  induction as generalizing bs cs with
  | nil => simp [zipW3]
  | cons a as ih =>
    cases bs with
    | nil => simp [zipW3]
    | cons b bs =>
      cases cs with
      | nil => simp [zipW3]
      | cons c cs =>
        simp only [zipW3, List.length_cons, ih]
        omega

lemma getD_zipW3_of_lt {α β γ δ : Type} (f : α → β → γ → δ) (as : List α) (bs : List β)
    (cs : List γ) (i : ℕ) (h1 : i < as.length) (h2 : i < bs.length) (h3 : i < cs.length)
    (da : α) (db : β) (dc : γ) (dd : δ) :
    (zipW3 f as bs cs).getD i dd = f (as.getD i da) (bs.getD i db) (cs.getD i dc) := by
  induction as generalizing bs cs i with
  | nil => simp at h1
  | cons a as ih =>
    cases bs with
    | nil => simp at h2
    | cons b bs =>
      cases cs with
      | nil => simp at h3
      | cons c cs =>
        cases i with
        | zero => simp [zipW3]
        | succ j =>
          simpa [zipW3] using
            ih bs cs j (by simpa using h1) (by simpa using h2) (by simpa using h3)

lemma length_applyFix (m : List Bool) (xs : List Val) :
    (applyFix m xs).length = min m.length xs.length := by
  simp [applyFix]

lemma getD_applyFix_of_lt (m : List Bool) (xs : List Val) (i : ℕ)
    (h1 : i < m.length) (h2 : i < xs.length) :
    (applyFix m xs).getD i none =
      (if m.getD i false then clip0 (xs.getD i none) else xs.getD i none) := by
  simpa [applyFix] using getD_zipWith_of_lt _ m xs i h1 h2 false none none

lemma applyFix_of_false (m : List Bool) (xs : List Val)
    (hf : ∀ b ∈ m, b = false) (hl : m.length = xs.length) :
    applyFix m xs = xs := by
  induction m generalizing xs with
  | nil =>
    cases xs with
    | nil => rfl
    | cons x xs => simp at hl
  | cons b m ih =>
    cases xs with
    | nil => simp at hl
    | cons x xs =>
      have hb : b = false := hf b (List.mem_cons_self b m)
      subst hb
      simp only [applyFix, List.zipWith_cons_cons, if_neg Bool.false_ne_true]
      have := ih xs (fun b hb => hf b (List.mem_cons_of_mem _ hb)) (by simpa using hl)
      simpa [applyFix] using this

lemma length_keepCol {β : Type} (m : List Bool) (xs : List β) (hl : m.length = xs.length) :
    (keepCol m xs).length = countFalse m := by
  induction m generalizing xs with
  | nil =>
    cases xs with
    | nil => simp [keepCol, countFalse]
    | cons x xs => simp at hl
  | cons b m ih =>
    cases xs with
    | nil => simp at hl
    | cons x xs =>
      cases b with
      | true => simp [keepCol, countFalse, List.countP_cons, ih xs (by simpa using hl)]
      | false => simp [keepCol, countFalse, List.countP_cons, ih xs (by simpa using hl)]

lemma keepCol_char {β : Type} (m : List Bool) (xs : List (Option β)) (hl : m.length = xs.length) :
    keepCol m xs =
      sampleCells xs ((List.range xs.length).filter (fun i => !(m.getD i true))) := by
  induction m generalizing xs with
  | nil =>
    cases xs with
    | nil => simp [keepCol, sampleCells]
    | cons x xs => simp at hl
  | cons b m ih =>
    cases xs with
    | nil => simp at hl
    | cons x xs =>
      have hl' : m.length = xs.length := by simpa using hl
      have hmap :
          ((List.range xs.length).map Nat.succ).filter (fun i => !((b :: m).getD i true)) =
            ((List.range xs.length).filter (fun i => !(m.getD i true))).map Nat.succ := by
        rw [List.filter_map]
        rfl
      have hsample :
          sampleCells (x :: xs) ((((List.range xs.length)).filter
              (fun i => !(m.getD i true))).map Nat.succ) =
            sampleCells xs ((List.range xs.length).filter (fun i => !(m.getD i true))) := by
        simp only [sampleCells, List.map_map]
        rfl
      rw [List.length_cons, List.range_succ_eq_map, List.filter_cons]
      cases b with
      | true =>
        simp only [keepCol, if_pos rfl, List.getD_cons_zero, Bool.not_true,
          Bool.false_eq_true, if_neg (by simp : ¬(false = true)), hmap, hsample,
          if_true, if_false]
        exact ih xs hl'
      | false =>
        simp only [keepCol, if_neg Bool.false_ne_true, List.getD_cons_zero, Bool.not_false,
          if_pos rfl, hmap, if_true, if_false]
        rw [show sampleCells (x :: xs)
            (0 :: ((List.range xs.length).filter (fun i => !(m.getD i true))).map Nat.succ) =
            x :: sampleCells (x :: xs)
              (((List.range xs.length).filter (fun i => !(m.getD i true))).map Nat.succ) from rfl,
          hsample]
        exact congrArg (x :: ·) (ih xs hl')

lemma keepCol_of_false {β : Type} (m : List Bool) (xs : List β)
    (hf : ∀ b ∈ m, b = false) (hl : m.length = xs.length) :
    keepCol m xs = xs := by
  induction m generalizing xs with
  | nil =>
    cases xs with
    | nil => rfl
    | cons x xs => simp at hl
  | cons b m ih =>
    cases xs with
    | nil => simp at hl
    | cons x xs =>
      have hb : b = false := hf b (List.mem_cons_self b m)
      subst hb
      simp only [keepCol, if_neg Bool.false_ne_true]
      exact congrArg (x :: ·) (ih xs (fun b hb => hf b (List.mem_cons_of_mem _ hb))
        (by simpa using hl))

lemma countP_eq_range (q : Bool → Bool) (m : List Bool) :
    m.countP q = ((List.range m.length).filter (fun i => q (m.getD i true))).length := by
  induction m with
  | nil => simp
  | cons b m ih =>
    have hmap :
        ((List.range m.length).map Nat.succ).filter (fun i => q ((b :: m).getD i true)) =
          ((List.range m.length).filter (fun i => q (m.getD i true))).map Nat.succ := by
      rw [List.filter_map]
      rfl
    rw [List.length_cons, List.range_succ_eq_map, List.filter_cons]
    cases hq : q b with
    | true =>
      simp only [List.countP_cons, hq, List.getD_cons_zero, if_pos rfl, hmap,
        if_true, if_false, List.length_cons, List.length_map]
      omega
    | false =>
      simp only [List.countP_cons, hq, List.getD_cons_zero, Bool.false_eq_true,
        if_neg (by simp : ¬(false = true)), hmap, if_true, if_false, List.length_map]
      omega

lemma WFb_elim (df : DF) (hw : df.WFb = true) :
    olen df.Timestamp df.nrows = true ∧ (olen df.GHI df.nrows = true ∧
    (olen df.DNI df.nrows = true ∧ (olen df.DHI df.nrows = true ∧
    (olen df.ModA df.nrows = true ∧ (olen df.ModB df.nrows = true ∧
    (olen df.WS df.nrows = true ∧ (olen df.WSgust df.nrows = true ∧
    (olen df.Tamb df.nrows = true ∧ (olen df.RH df.nrows = true ∧
    (olen df.Precipitation df.nrows = true ∧ (olen df.Hour df.nrows = true ∧
    (olen df.Month df.nrows = true ∧ olen df.HasRain df.nrows = true)))))))))))) := by
  simpa [DF.WFb, Bool.and_eq_true, and_assoc] using hw

lemma getD_fixmask (thr : ℚ) (g d h : List Val) (i : ℕ)
    (h1 : i < g.length) (h2 : i < d.length) (h3 : i < h.length) :
    (List.zipWith (fun a b => a && b) (nightMask thr g d h) (negMask g d h)).getD i false =
      (nightAtI thr g d h i && negAtI g d h i) := by
  have hln : i < (nightMask thr g d h).length := by
    rw [nightMask, length_zipW3]; omega
  have hlg : i < (negMask g d h).length := by
    rw [negMask, length_zipW3]; omega
  rw [getD_zipWith_of_lt _ _ _ i hln hlg false false false]
  have hn : (nightMask thr g d h).getD i false = nightAtI thr g d h i := by
    simpa [nightMask, nightAtI, cellAt] using
      getD_zipW3_of_lt _ g d h i h1 h2 h3 none none none false
  have hg : (negMask g d h).getD i false = negAtI g d h i := by
    simpa [negMask, negAtI, cellAt] using
      getD_zipW3_of_lt _ g d h i h1 h2 h3 none none none false
  rw [hn, hg]

lemma getD_daymask (thr : ℚ) (g d h : List Val) (i : ℕ)
    (h1 : i < g.length) (h2 : i < d.length) (h3 : i < h.length) :
    (List.zipWith (fun a b => a && b) (dayMask thr g d h) (negMask g d h)).getD i false =
      (dayAtI thr g d h i && negAtI g d h i) := by
  have hln : i < (dayMask thr g d h).length := by
    rw [dayMask, length_zipW3]; omega
  have hlg : i < (negMask g d h).length := by
    rw [negMask, length_zipW3]; omega
  rw [getD_zipWith_of_lt _ _ _ i hln hlg false false false]
  have hn : (dayMask thr g d h).getD i false = dayAtI thr g d h i := by
    simpa [dayMask, dayAtI, cellAt] using
      getD_zipW3_of_lt _ g d h i h1 h2 h3 none none none false
  have hg : (negMask g d h).getD i false = negAtI g d h i := by
    simpa [negMask, negAtI, cellAt] using
      getD_zipW3_of_lt _ g d h i h1 h2 h3 none none none false
  rw [hn, hg]

lemma vlt_some_of_true {o : Val} {t : ℚ} (h : vlt o t = true) :
    ∃ x, o = some x ∧ x < t := by
  cases o with
  | none => simp [vlt] at h
  | some x =>
    refine ⟨x, rfl, ?_⟩
    by_contra hx
    simp [vlt, hx] at h

lemma clip0_clamped {x : ℚ} :
    ∃ y, clip0 (some x) = some y ∧ 0 ≤ y ∧ (0 < x → y = x) := by
  refine ⟨max x 0, by simp [clip0], le_max_right x 0, fun hx => max_eq_left hx.le⟩

lemma applyFix_skip (fixm : List Bool) (xs : List Val) (i : ℕ)
    (hif : i < fixm.length) (hix : i < xs.length)
    (hm : fixm.getD i false = false) :
    cellAt (applyFix fixm xs) i = cellAt xs i := by
  unfold cellAt
  rw [getD_applyFix_of_lt fixm xs i hif hix, hm]
  simp

lemma applyFix_clamp_some (fixm : List Bool) (xs : List Val) (i : ℕ)
    (hif : i < fixm.length) (hix : i < xs.length)
    (hm : fixm.getD i false = true) {y : ℚ} (hcell : cellAt xs i = some y) :
    ∃ x, cellAt (applyFix fixm xs) i = some x ∧ 0 ≤ x ∧
      (∀ z, cellAt xs i = some z → 0 < z → x = z) := by
  have hc : cellAt (applyFix fixm xs) i = clip0 (cellAt xs i) := by
    unfold cellAt
    rw [getD_applyFix_of_lt fixm xs i hif hix, hm]
    simp [cellAt]
  refine ⟨max y 0, ?_, le_max_right y 0, ?_⟩
  · rw [hc, hcell]; simp [clip0]
  · intro z hz hz0
    rw [hcell] at hz
    cases hz
    exact max_eq_left hz0.le

lemma applyFix_clamp_nonneg (fixm : List Bool) (xs : List Val) (i : ℕ)
    (hif : i < fixm.length) (hix : i < xs.length)
    (hm : fixm.getD i false = true) :
    ∀ x, cellAt (applyFix fixm xs) i = some x → 0 ≤ x := by
  have hc : cellAt (applyFix fixm xs) i = clip0 (cellAt xs i) := by
    unfold cellAt
    rw [getD_applyFix_of_lt fixm xs i hif hix, hm]
    simp [cellAt]
  intro x hx
  rw [hc] at hx
  cases hcell : cellAt xs i with
  | none => rw [hcell] at hx; simp [clip0] at hx
  | some y =>
    rw [hcell] at hx
    simp only [clip0, Option.map_some] at hx
    cases hx
    exact le_max_right y 0

/-- C1: for a table with the GHI, DNI and DHI columns, the night-time
negative-correction stage succeeds; in every row where all three irradiance
cells are below the threshold and at least one is negative, all three cells
come out non-negative with previously positive values untouched; every row
failing either condition keeps its three irradiance cells (and all other
columns of the table, per the returned record) unchanged. -/
theorem zeroNight_corrects_night_negatives (thr : ℚ) (df : DF) (g d h : List Val)
    (hw : df.WFb = true) (hg : df.GHI = some g) (hd : df.DNI = some d)
    (hh : df.DHI = some h) :
    ∃ g2 d2 h2,
      zeroNightNegatives thr df =
        .ok { df with GHI := some g2, DNI := some d2, DHI := some h2 } ∧
      g2.length = df.nrows ∧ d2.length = df.nrows ∧ h2.length = df.nrows ∧
      ∀ i, i < df.nrows →
        ((nightAtI thr g d h i && negAtI g d h i) = true →
          (∃ x, cellAt g2 i = some x ∧ 0 ≤ x ∧
            ∀ z, cellAt g i = some z → 0 < z → x = z) ∧
          (∃ x, cellAt d2 i = some x ∧ 0 ≤ x ∧
            ∀ z, cellAt d i = some z → 0 < z → x = z) ∧
          (∃ x, cellAt h2 i = some x ∧ 0 ≤ x ∧
            ∀ z, cellAt h i = some z → 0 < z → x = z)) ∧
        ((nightAtI thr g d h i && negAtI g d h i) = false →
          cellAt g2 i = cellAt g i ∧ cellAt d2 i = cellAt d i ∧
          cellAt h2 i = cellAt h i) := by
  obtain ⟨-, hG, hD, hH, -⟩ := WFb_elim df hw
  rw [hg] at hG; rw [hd] at hD; rw [hh] at hH
  have hgl : g.length = df.nrows := olen_some hG
  have hdl : d.length = df.nrows := olen_some hD
  have hhl : h.length = df.nrows := olen_some hH
  set fixm := List.zipWith (fun a b => a && b) (nightMask thr g d h) (negMask g d h) with hfixm
  have hml : fixm.length = df.nrows := by
    rw [hfixm, List.length_zipWith, nightMask, negMask, length_zipW3, length_zipW3,
      hgl, hdl, hhl]
    omega
  refine ⟨applyFix fixm g, applyFix fixm d, applyFix fixm h, ?_, ?_, ?_, ?_, ?_⟩
  · simp only [zeroNightNegatives, hg, hd, hh, hfixm]
  · rw [length_applyFix, hml, hgl]; omega
  · rw [length_applyFix, hml, hdl]; omega
  · rw [length_applyFix, hml, hhl]; omega
  · intro i hi
    have hif : i < fixm.length := by omega
    have hig : i < g.length := by omega
    have hid : i < d.length := by omega
    have hih : i < h.length := by omega
    have hmi : fixm.getD i false = (nightAtI thr g d h i && negAtI g d h i) :=
      getD_fixmask thr g d h i hig hid hih
    constructor
    · intro hc
      have hmt : fixm.getD i false = true := by rw [hmi, hc]
      have hc' := hc
      simp only [Bool.and_eq_true] at hc'
      have hnight := hc'.1
      simp only [nightAtI, Bool.and_eq_true] at hnight
      have hvg := hnight.1
      have hvd := hnight.2.1
      have hvh := hnight.2.2
      obtain ⟨yg, hyg, -⟩ := vlt_some_of_true hvg
      obtain ⟨yd, hyd, -⟩ := vlt_some_of_true hvd
      obtain ⟨yh, hyh, -⟩ := vlt_some_of_true hvh
      exact ⟨applyFix_clamp_some fixm g i hif hig hmt hyg,
        applyFix_clamp_some fixm d i hif hid hmt hyd,
        applyFix_clamp_some fixm h i hif hih hmt hyh⟩
    · intro hc
      have hmf : fixm.getD i false = false := by rw [hmi, hc]
      exact ⟨applyFix_skip fixm g i hif hig hmf, applyFix_skip fixm d i hif hid hmf,
        applyFix_skip fixm h i hif hih hmf⟩

lemma dayCore_spec (thr : ℚ) (df : DF) (g d h : List Val) (n : ℕ)
    (hg : df.GHI = some g) (hd : df.DNI = some d) (hh : df.DHI = some h)
    (hgl : g.length = n) (hdl : d.length = n) (hhl : h.length = n) :
    ∃ g2 d2 h2,
      dayCore thr df =
        .ok { df with GHI := some g2, DNI := some d2, DHI := some h2 } ∧
      g2.length = n ∧ d2.length = n ∧ h2.length = n ∧
      ∀ i, i < n →
        ((dayAtI thr g d h i && negAtI g d h i) = true →
          (∀ x, cellAt g2 i = some x → 0 ≤ x) ∧
          (∀ x, cellAt d2 i = some x → 0 ≤ x) ∧
          (∀ x, cellAt h2 i = some x → 0 ≤ x)) ∧
        ((dayAtI thr g d h i && negAtI g d h i) = false →
          cellAt g2 i = cellAt g i ∧ cellAt d2 i = cellAt d i ∧
          cellAt h2 i = cellAt h i) := by
  set fixm := List.zipWith (fun a b => a && b) (dayMask thr g d h) (negMask g d h) with hfixm
  have hml : fixm.length = n := by
    rw [hfixm, List.length_zipWith, dayMask, negMask, length_zipW3, length_zipW3,
      hgl, hdl, hhl]
    omega
  refine ⟨applyFix fixm g, applyFix fixm d, applyFix fixm h, ?_, ?_, ?_, ?_, ?_⟩
  · simp only [dayCore, hg, hd, hh, hfixm]
  · rw [length_applyFix, hml, hgl]; omega
  · rw [length_applyFix, hml, hdl]; omega
  · rw [length_applyFix, hml, hhl]; omega
  · intro i hi
    have hif : i < fixm.length := by omega
    have hig : i < g.length := by omega
    have hid : i < d.length := by omega
    have hih : i < h.length := by omega
    have hmi : fixm.getD i false = (dayAtI thr g d h i && negAtI g d h i) :=
      getD_daymask thr g d h i hig hid hih
    constructor
    · intro hc
      have hmt : fixm.getD i false = true := by rw [hmi, hc]
      exact ⟨applyFix_clamp_nonneg fixm g i hif hig hmt,
        applyFix_clamp_nonneg fixm d i hif hid hmt,
        applyFix_clamp_nonneg fixm h i hif hih hmt⟩
    · intro hc
      have hmf : fixm.getD i false = false := by rw [hmi, hc]
      exact ⟨applyFix_skip fixm g i hif hig hmf, applyFix_skip fixm d i hif hid hmf,
        applyFix_skip fixm h i hif hih hmf⟩

/-- C2: for a table with the GHI, DNI and DHI columns and either an `Hour`
column or a `Timestamp` column to derive it from, the day-time
negative-correction stage succeeds; in every row where some irradiance cell
exceeds the threshold and at least one is negative, no negative irradiance
cell remains; every row failing either condition keeps its three irradiance
cells unchanged by this stage. -/
theorem fixDaytime_corrects_day_negatives (thr : ℚ) (df : DF) (g d h : List Val)
    (hw : df.WFb = true) (hg : df.GHI = some g) (hd : df.DNI = some d)
    (hh : df.DHI = some h)
    (hht : df.Hour.isSome = true ∨ df.Timestamp.isSome = true) :
    ∃ df2 g2 d2 h2,
      fixDaytimeNegatives thr df = .ok df2 ∧
      df2.GHI = some g2 ∧ df2.DNI = some d2 ∧ df2.DHI = some h2 ∧
      g2.length = df.nrows ∧ d2.length = df.nrows ∧ h2.length = df.nrows ∧
      ∀ i, i < df.nrows →
        ((dayAtI thr g d h i && negAtI g d h i) = true →
          (∀ x, cellAt g2 i = some x → 0 ≤ x) ∧
          (∀ x, cellAt d2 i = some x → 0 ≤ x) ∧
          (∀ x, cellAt h2 i = some x → 0 ≤ x)) ∧
        ((dayAtI thr g d h i && negAtI g d h i) = false →
          cellAt g2 i = cellAt g i ∧ cellAt d2 i = cellAt d i ∧
          cellAt h2 i = cellAt h i) := by
  obtain ⟨-, hG, hD, hH, -⟩ := WFb_elim df hw
  rw [hg] at hG; rw [hd] at hD; rw [hh] at hH
  have hgl : g.length = df.nrows := olen_some hG
  have hdl : d.length = df.nrows := olen_some hD
  have hhl : h.length = df.nrows := olen_some hH
  cases hHr : df.Hour with
  | some hr =>
    obtain ⟨g2, d2, h2, heq, hl1, hl2, hl3, hpt⟩ :=
      dayCore_spec thr df g d h df.nrows hg hd hh hgl hdl hhl
    refine ⟨{ df with GHI := some g2, DNI := some d2, DHI := some h2 }, g2, d2, h2,
      ?_, rfl, rfl, rfl, hl1, hl2, hl3, hpt⟩
    simp only [fixDaytimeNegatives, hHr, heq]
  | none =>
    cases hTs : df.Timestamp with
    | none => rw [hHr, hTs] at hht; simp at hht
    | some ts =>
      obtain ⟨g2, d2, h2, heq, hl1, hl2, hl3, hpt⟩ :=
        dayCore_spec thr { df with Hour := some (ts.map hourify) } g d h df.nrows
          (by simpa using hg) (by simpa using hd) (by simpa using hh) hgl hdl hhl
      refine ⟨{ df with
          Hour := some (ts.map hourify)
          GHI := some g2
          DNI := some d2
          DHI := some h2 }, g2, d2, h2, ?_, rfl, rfl, rfl, hl1, hl2, hl3, hpt⟩
      rw [show fixDaytimeNegatives thr df =
        dayCore thr { df with Hour := some (ts.map hourify) } by
          simp only [fixDaytimeNegatives, hHr, hTs], heq]

lemma length_exCol (t : ℚ) (xs : List Val) : (exCol t xs).length = xs.length := by
  simp [exCol]

lemma getD_exCol_of_lt (t : ℚ) (xs : List Val) (i : ℕ) (hi : i < xs.length) (db : Bool) :
    (exCol t xs).getD i db = exceedsCell t (meanOf xs) (varOf xs) (cellAt xs i) := by
  simpa [exCol, cellAt] using getD_map_of_lt (exceedsCell t (meanOf xs) (varOf xs)) xs i hi none db

lemma length_orZip (a b : List Bool) : (orZip a b).length = min a.length b.length := by
  simp [orZip]

lemma getD_orZip_of_lt (a b : List Bool) (i : ℕ) (h1 : i < a.length) (h2 : i < b.length)
    (dflt : Bool) :
    (orZip a b).getD i dflt = (a.getD i dflt || b.getD i dflt) := by
  simpa [orZip] using getD_zipWith_of_lt _ a b i h1 h2 dflt dflt dflt

lemma length_outlierMask (t : ℚ) (g d h ma mb ws wg : List Val) (n : ℕ)
    (h1 : g.length = n) (h2 : d.length = n) (h3 : h.length = n) (h4 : ma.length = n)
    (h5 : mb.length = n) (h6 : ws.length = n) (h7 : wg.length = n) :
    (outlierMask t g d h ma mb ws wg).length = n := by
  simp only [outlierMask, length_orZip, length_exCol, h1, h2, h3, h4, h5, h6, h7]
  omega

lemma getD_outlierMask_of_lt (t : ℚ) (g d h ma mb ws wg : List Val) (n i : ℕ)
    (h1 : g.length = n) (h2 : d.length = n) (h3 : h.length = n) (h4 : ma.length = n)
    (h5 : mb.length = n) (h6 : ws.length = n) (h7 : wg.length = n) (hi : i < n) :
    (outlierMask t g d h ma mb ws wg).getD i true =
      (exceedsCell t (meanOf g) (varOf g) (cellAt g i) ||
        (exceedsCell t (meanOf d) (varOf d) (cellAt d i) ||
        (exceedsCell t (meanOf h) (varOf h) (cellAt h i) ||
        (exceedsCell t (meanOf ma) (varOf ma) (cellAt ma i) ||
        (exceedsCell t (meanOf mb) (varOf mb) (cellAt mb i) ||
        (exceedsCell t (meanOf ws) (varOf ws) (cellAt ws i) ||
          exceedsCell t (meanOf wg) (varOf wg) (cellAt wg i))))))) := by
  have e1 : i < (exCol t g).length := by rw [length_exCol]; omega
  have e2 : i < (exCol t d).length := by rw [length_exCol]; omega
  have e3 : i < (exCol t h).length := by rw [length_exCol]; omega
  have e4 : i < (exCol t ma).length := by rw [length_exCol]; omega
  have e5 : i < (exCol t mb).length := by rw [length_exCol]; omega
  have e6 : i < (exCol t ws).length := by rw [length_exCol]; omega
  have e7 : i < (exCol t wg).length := by rw [length_exCol]; omega
  have o67 : i < (orZip (exCol t ws) (exCol t wg)).length := by
    rw [length_orZip]; omega
  have o567 : i < (orZip (exCol t mb) (orZip (exCol t ws) (exCol t wg))).length := by
    rw [length_orZip, length_orZip]; omega
  have o4567 : i < (orZip (exCol t ma) (orZip (exCol t mb)
      (orZip (exCol t ws) (exCol t wg)))).length := by
    rw [length_orZip, length_orZip, length_orZip]; omega
  have o34567 : i < (orZip (exCol t h) (orZip (exCol t ma) (orZip (exCol t mb)
      (orZip (exCol t ws) (exCol t wg))))).length := by
    rw [length_orZip, length_orZip, length_orZip, length_orZip]; omega
  have o234567 : i < (orZip (exCol t d) (orZip (exCol t h) (orZip (exCol t ma)
      (orZip (exCol t mb) (orZip (exCol t ws) (exCol t wg)))))).length := by
    rw [length_orZip, length_orZip, length_orZip, length_orZip, length_orZip]; omega
  rw [outlierMask,
    getD_orZip_of_lt _ _ i e1 o234567,
    getD_orZip_of_lt _ _ i e2 o34567,
    getD_orZip_of_lt _ _ i e3 o4567,
    getD_orZip_of_lt _ _ i e4 o567,
    getD_orZip_of_lt _ _ i e5 o67,
    getD_orZip_of_lt _ _ i e6 e7,
    getD_exCol_of_lt t g i (by omega), getD_exCol_of_lt t d i (by omega),
    getD_exCol_of_lt t h i (by omega), getD_exCol_of_lt t ma i (by omega),
    getD_exCol_of_lt t mb i (by omega), getD_exCol_of_lt t ws i (by omega),
    getD_exCol_of_lt t wg i (by omega)]

lemma keepCol_req (m : List Bool) (xs : List Val) (n : ℕ) (K : List ℕ)
    (hml : m.length = n) (hxl : xs.length = n)
    (hfil : (List.range n).filter (fun i => !(m.getD i true)) = K) :
    keepCol m xs = sampleCells xs K := by
  rw [keepCol_char m xs (by omega), hxl, hfil]

lemma keepCol_opt {β : Type} (m : List Bool) (c : Option (List (Option β))) (n : ℕ)
    (K : List ℕ) (hml : m.length = n) (hc : olen c n = true)
    (hfil : (List.range n).filter (fun i => !(m.getD i true)) = K) :
    c.map (keepCol m) = c.map (fun xs => sampleCells xs K) := by
  cases c with
  | none => rfl
  | some xs =>
    have hxl := olen_some hc
    show some (keepCol m xs) = some (sampleCells xs K)
    rw [keepCol_char m xs (by omega), hxl, hfil]

lemma clipOutliers_char (t : ℚ) (df : DF) (g d h ma mb ws wg : List Val)
    (hw : df.WFb = true) (hg : df.GHI = some g) (hd : df.DNI = some d)
    (hh : df.DHI = some h) (hma : df.ModA = some ma) (hmb : df.ModB = some mb)
    (hws : df.WS = some ws) (hwg : df.WSgust = some wg) :
    clipOutliers t df = .ok
      ({ nrows := (keptIdx t df).length
         Timestamp := df.Timestamp.map (fun xs => sampleCells xs (keptIdx t df))
         GHI := some (sampleCells g (keptIdx t df))
         DNI := some (sampleCells d (keptIdx t df))
         DHI := some (sampleCells h (keptIdx t df))
         ModA := some (sampleCells ma (keptIdx t df))
         ModB := some (sampleCells mb (keptIdx t df))
         WS := some (sampleCells ws (keptIdx t df))
         WSgust := some (sampleCells wg (keptIdx t df))
         Tamb := df.Tamb.map (fun xs => sampleCells xs (keptIdx t df))
         RH := df.RH.map (fun xs => sampleCells xs (keptIdx t df))
         Precipitation := df.Precipitation.map (fun xs => sampleCells xs (keptIdx t df))
         Hour := df.Hour.map (fun xs => sampleCells xs (keptIdx t df))
         Month := df.Month.map (fun xs => sampleCells xs (keptIdx t df))
         HasRain := df.HasRain.map (fun xs => sampleCells xs (keptIdx t df)) },
       ((List.range df.nrows).filter (fun i => rowIsOutlier t df i)).length) := by
  obtain ⟨hT, hG, hD, hH, hMA, hMB, hWS, hWG, hTa, hRH, hPr, hHo, hMo, hHa⟩ := WFb_elim df hw
  have hgl : g.length = df.nrows := olen_some (hg ▸ hG)
  have hdl : d.length = df.nrows := olen_some (hd ▸ hD)
  have hhl : h.length = df.nrows := olen_some (hh ▸ hH)
  have hmal : ma.length = df.nrows := olen_some (hma ▸ hMA)
  have hmbl : mb.length = df.nrows := olen_some (hmb ▸ hMB)
  have hwsl : ws.length = df.nrows := olen_some (hws ▸ hWS)
  have hwgl : wg.length = df.nrows := olen_some (hwg ▸ hWG)
  set m := outlierMask t g d h ma mb ws wg with hm
  have hml : m.length = df.nrows :=
    length_outlierMask t g d h ma mb ws wg df.nrows hgl hdl hhl hmal hmbl hwsl hwgl
  have hmask : ∀ i, i < df.nrows → m.getD i true = rowIsOutlier t df i := by
    intro i hi
    rw [hm, getD_outlierMask_of_lt t g d h ma mb ws wg df.nrows i hgl hdl hhl hmal hmbl
      hwsl hwgl hi]
    simp only [rowIsOutlier, exceedsAt, hg, hd, hh, hma, hmb, hws, hwg]
  have hfil : (List.range df.nrows).filter (fun i => !(m.getD i true)) = keptIdx t df := by
    unfold keptIdx
    exact List.filter_congr (fun i hi => by rw [hmask i (List.mem_range.mp hi)])
  have hcf : countFalse m = (keptIdx t df).length := by
    rw [countFalse, countP_eq_range _ m, hml, hfil]
  have hct : countTrue m =
      ((List.range df.nrows).filter (fun i => rowIsOutlier t df i)).length := by
    rw [countTrue, countP_eq_range _ m, hml]
    congr 1
    exact List.filter_congr (fun i hi => by rw [hmask i (List.mem_range.mp hi)])
  rw [clipOutliers]
  simp only [hg, hd, hh, hma, hmb, hws, hwg]
  rw [← hm]
  refine congrArg Except.ok (Prod.ext ?_ hct)
  refine DF.ext hcf ?_ ?_ ?_ ?_ ?_ ?_ ?_ ?_ ?_ ?_ ?_ ?_ ?_ ?_
  · exact keepCol_opt m df.Timestamp df.nrows (keptIdx t df) hml hT hfil
  · exact congrArg some (keepCol_req m g df.nrows (keptIdx t df) hml hgl hfil)
  · exact congrArg some (keepCol_req m d df.nrows (keptIdx t df) hml hdl hfil)
  · exact congrArg some (keepCol_req m h df.nrows (keptIdx t df) hml hhl hfil)
  · exact congrArg some (keepCol_req m ma df.nrows (keptIdx t df) hml hmal hfil)
  · exact congrArg some (keepCol_req m mb df.nrows (keptIdx t df) hml hmbl hfil)
  · exact congrArg some (keepCol_req m ws df.nrows (keptIdx t df) hml hwsl hfil)
  · exact congrArg some (keepCol_req m wg df.nrows (keptIdx t df) hml hwgl hfil)
  · exact keepCol_opt m df.Tamb df.nrows (keptIdx t df) hml hTa hfil
  · exact keepCol_opt m df.RH df.nrows (keptIdx t df) hml hRH hfil
  · exact keepCol_opt m df.Precipitation df.nrows (keptIdx t df) hml hPr hfil
  · exact keepCol_opt m df.Hour df.nrows (keptIdx t df) hml hHo hfil
  · exact keepCol_opt m df.Month df.nrows (keptIdx t df) hml hMo hfil
  · exact keepCol_opt m df.HasRain df.nrows (keptIdx t df) hml hHa hfil

lemma cellAt_sampleCells (xs : List Val) (K : List ℕ) (j : ℕ) (hj : j < K.length) :
    cellAt (sampleCells xs K) j = cellAt xs (K.getD j 0) := by
  unfold cellAt sampleCells
  exact getD_map_of_lt _ K j hj 0 none

lemma mem_keptIdx {t : ℚ} {df : DF} {i : ℕ} (h : i ∈ keptIdx t df) :
    i < df.nrows ∧ rowIsOutlier t df i = false := by
  have := List.mem_filter.mp h
  exact ⟨List.mem_range.mp this.1, by simpa using this.2⟩

/-- C3: for a well-formed table with the seven monitored channels, the
outlier-removal stage succeeds and drops exactly the rows whose absolute
z-score (per value within each channel, missing values excluded from the
statistic) exceeds the threshold in at least one channel: every column of
the result is the original column sampled at the surviving row indices in
their original order, and the returned count is the number of dropped
rows. -/
theorem clipOutliers_drops_exactly_outliers (t : ℚ) (df : DF)
    (g d h ma mb ws wg : List Val)
    (hw : df.WFb = true) (hg : df.GHI = some g) (hd : df.DNI = some d)
    (hh : df.DHI = some h) (hma : df.ModA = some ma) (hmb : df.ModB = some mb)
    (hws : df.WS = some ws) (hwg : df.WSgust = some wg) :
    clipOutliers t df = .ok
      ({ nrows := (keptIdx t df).length
         Timestamp := df.Timestamp.map (fun xs => sampleCells xs (keptIdx t df))
         GHI := some (sampleCells g (keptIdx t df))
         DNI := some (sampleCells d (keptIdx t df))
         DHI := some (sampleCells h (keptIdx t df))
         ModA := some (sampleCells ma (keptIdx t df))
         ModB := some (sampleCells mb (keptIdx t df))
         WS := some (sampleCells ws (keptIdx t df))
         WSgust := some (sampleCells wg (keptIdx t df))
         Tamb := df.Tamb.map (fun xs => sampleCells xs (keptIdx t df))
         RH := df.RH.map (fun xs => sampleCells xs (keptIdx t df))
         Precipitation := df.Precipitation.map (fun xs => sampleCells xs (keptIdx t df))
         Hour := df.Hour.map (fun xs => sampleCells xs (keptIdx t df))
         Month := df.Month.map (fun xs => sampleCells xs (keptIdx t df))
         HasRain := df.HasRain.map (fun xs => sampleCells xs (keptIdx t df)) },
       ((List.range df.nrows).filter (fun i => rowIsOutlier t df i)).length) :=
  clipOutliers_char t df g d h ma mb ws wg hw hg hd hh hma hmb hws hwg

/-- C4 (amended): after outlier removal every surviving row comes from an
input row whose absolute z-score, computed over the INPUT table, exceeds the
threshold in no channel; the z-scores recomputed over the surviving table
alone can exceed the threshold (see the counterexample), because the filter
is a single pass. -/
theorem clipOutliers_survivors_not_input_outliers (t : ℚ) (df : DF)
    (g d h ma mb ws wg : List Val)
    (hw : df.WFb = true) (hg : df.GHI = some g) (hd : df.DNI = some d)
    (hh : df.DHI = some h) (hma : df.ModA = some ma) (hmb : df.ModB = some mb)
    (hws : df.WS = some ws) (hwg : df.WSgust = some wg) :
    ∀ df2 cnt, clipOutliers t df = .ok (df2, cnt) →
      ∀ j, j < df2.nrows → ∃ i, i < df.nrows ∧ rowIsOutlier t df i = false ∧
        (∃ g2, df2.GHI = some g2 ∧ cellAt g2 j = cellAt g i) ∧
        (∃ d2, df2.DNI = some d2 ∧ cellAt d2 j = cellAt d i) ∧
        (∃ h2, df2.DHI = some h2 ∧ cellAt h2 j = cellAt h i) ∧
        (∃ ma2, df2.ModA = some ma2 ∧ cellAt ma2 j = cellAt ma i) ∧
        (∃ mb2, df2.ModB = some mb2 ∧ cellAt mb2 j = cellAt mb i) ∧
        (∃ ws2, df2.WS = some ws2 ∧ cellAt ws2 j = cellAt ws i) ∧
        (∃ wg2, df2.WSgust = some wg2 ∧ cellAt wg2 j = cellAt wg i) := by
  intro df2 cnt heq j hj
  have hchar := clipOutliers_char t df g d h ma mb ws wg hw hg hd hh hma hmb hws hwg
  rw [heq] at hchar
  injection hchar with hchar
  injection hchar with hdf2 hcnt
  set K := keptIdx t df with hK
  have hjK : j < K.length := by
    rw [hdf2] at hj
    exact hj
  have hKmem : K.getD j 0 ∈ K := by
    rw [List.getD_eq_getElem?_getD, List.getElem?_eq_getElem hjK]
    exact List.getElem_mem hjK
  obtain ⟨hlt, hout⟩ := mem_keptIdx (hK ▸ hKmem)
  refine ⟨K.getD j 0, hlt, hout, ?_, ?_, ?_, ?_, ?_, ?_, ?_⟩
  · exact ⟨sampleCells g K, by rw [hdf2], cellAt_sampleCells g K j hjK⟩
  · exact ⟨sampleCells d K, by rw [hdf2], cellAt_sampleCells d K j hjK⟩
  · exact ⟨sampleCells h K, by rw [hdf2], cellAt_sampleCells h K j hjK⟩
  · exact ⟨sampleCells ma K, by rw [hdf2], cellAt_sampleCells ma K j hjK⟩
  · exact ⟨sampleCells mb K, by rw [hdf2], cellAt_sampleCells mb K j hjK⟩
  · exact ⟨sampleCells ws K, by rw [hdf2], cellAt_sampleCells ws K j hjK⟩
  · exact ⟨sampleCells wg K, by rw [hdf2], cellAt_sampleCells wg K j hjK⟩

/-- C10: a missing cell contributes no exceeding z-score, so a row whose
cells in all seven monitored channels are missing is never an outlier and
always survives the filter: its index is among the kept indices that every
output column samples. -/
theorem clipOutliers_keeps_all_missing_rows (t : ℚ) (df : DF)
    (g d h ma mb ws wg : List Val) (i : ℕ)
    (hw : df.WFb = true) (hg : df.GHI = some g) (hd : df.DNI = some d)
    (hh : df.DHI = some h) (hma : df.ModA = some ma) (hmb : df.ModB = some mb)
    (hws : df.WS = some ws) (hwg : df.WSgust = some wg)
    (hi : i < df.nrows)
    (cg : cellAt g i = none) (cd : cellAt d i = none) (ch : cellAt h i = none)
    (cma : cellAt ma i = none) (cmb : cellAt mb i = none) (cws : cellAt ws i = none)
    (cwg : cellAt wg i = none) :
    rowIsOutlier t df i = false ∧ i ∈ keptIdx t df ∧
      ∃ df2 cnt, clipOutliers t df = .ok (df2, cnt) ∧
        df2.GHI = some (sampleCells g (keptIdx t df)) ∧
        df2.nrows = (keptIdx t df).length := by
  have hout : rowIsOutlier t df i = false := by
    simp only [rowIsOutlier, exceedsAt, hg, hd, hh, hma, hmb, hws, hwg,
      cg, cd, ch, cma, cmb, cws, cwg, exceedsCell, Bool.or_self, Bool.or_false]
  refine ⟨hout, ?_, ?_⟩
  · exact List.mem_filter.mpr ⟨List.mem_range.mpr hi, by simp [hout]⟩
  · obtain hchar := clipOutliers_char t df g d h ma mb ws wg hw hg hd hh hma hmb hws hwg
    exact ⟨_, _, hchar, rfl, rfl⟩

lemma length_insQ (x : ℚ) (l : List ℚ) : (insQ x l).length = l.length + 1 := by
  induction l with
  | nil => rfl
  | cons y ys ih =>
    by_cases hxy : x ≤ y
    · simp [insQ, hxy]
    · simp [insQ, hxy, ih]

lemma length_sortQ (l : List ℚ) : (sortQ l).length = l.length := by
  induction l with
  | nil => rfl
  | cons x xs ih => simp [sortQ, length_insQ, ih]

lemma someVals_length_pos {xs : List Val} (h : xs.any (fun o => o.isSome) = true) :
    0 < (someVals xs).length := by
  induction xs with
  | nil => simp at h
  | cons o xs ih =>
    cases o with
    | some x => simp [someVals]
    | none =>
      simp only [List.any_cons, Option.isSome_none, Bool.false_or] at h
      simpa [someVals] using ih h

lemma medianOf_isSome {xs : List Val} (h : xs.any (fun o => o.isSome) = true) :
    (medianOf xs).isSome = true := by
  have hv : 0 < (sortQ (someVals xs)).length := by
    rw [length_sortQ]
    exact someVals_length_pos h
  unfold medianOf
  rw [if_neg (by omega)]
  by_cases hmod : (sortQ (someVals xs)).length % 2 = 1
  · simp [hmod]
  · simp [hmod]

lemma fillna_all_isSome {xs : List Val} (h : xs.any (fun o => o.isSome) = true) :
    (fillna xs).all (fun o => o.isSome) = true := by
  rw [List.all_eq_true]
  intro o ho
  obtain ⟨c, hc, hco⟩ := List.mem_map.mp ho
  cases c with
  | some x => rw [← hco]; rfl
  | none => rw [← hco]; exact medianOf_isSome h

lemma imputeMedian_keyCol (df : DF) (k : KCol) :
    (imputeMedian df).keyCol k = (df.keyCol k).map fillna := by
  cases k <;> rfl

lemma engineerFeatures_keyCol (df : DF) (k : KCol) :
    (engineerFeatures df).keyCol k = df.keyCol k := by
  unfold engineerFeatures
  cases hT : df.Timestamp <;> cases hP : df.Precipitation <;> cases k <;>
    simp [hT, hP, DF.keyCol]

lemma cleanStages_ok_elim {c : SolarCleaner} {df df4 out : DF}
    (h : cleanStages c df = .ok (df4, out)) :
    ∃ df2 df3 cnt,
      zeroNightNegatives 1 (dropEmptyColumns 1 df) = .ok df2 ∧
      fixDaytimeNegatives 1 df2 = .ok df3 ∧
      clipOutliers c.z_thresh df3 = .ok (df4, cnt) ∧
      out = (if c.add_features then
               engineerFeatures (if c.impute then imputeMedian df4 else df4)
             else (if c.impute then imputeMedian df4 else df4)) := by
  unfold cleanStages at h
  simp only [bind, Except.bind] at h
  cases h2 : zeroNightNegatives 1 (dropEmptyColumns 1 df) with
  | error e => rw [h2] at h; simp at h
  | ok df2 =>
    rw [h2] at h
    dsimp only at h
    cases h3 : fixDaytimeNegatives 1 df2 with
    | error e => rw [h3] at h; simp at h
    | ok df3 =>
      rw [h3] at h
      dsimp only at h
      cases h4 : clipOutliers c.z_thresh df3 with
      | error e => rw [h4] at h; simp at h
      | ok pr =>
        rw [h4] at h
        dsimp only at h
        simp only [pure, Except.pure, Except.ok.injEq, Prod.mk.injEq] at h
        refine ⟨df2, df3, pr.2, rfl, h3, ?_, ?_⟩
        · rw [h4]
          exact congrArg Except.ok (Prod.ext h.1 rfl)
        · rw [← h.2, h.1]

/-- C5 (amended): with imputation enabled, every key column of the final
table is the corresponding column of the table after outlier removal with
its missing values replaced by that column's median; consequently a key
column that still has at least one non-missing value after outlier removal
comes out with no missing values.  A key column whose surviving values are
all missing keeps its missing values (`fillna` with a `NaN` median is a
no-op), which refutes the unconditional claim (see the counterexample). -/
theorem clean_imputes_key_columns (c : SolarCleaner) (df df4 out : DF)
    (himp : c.impute = true) (h : cleanStages c df = .ok (df4, out)) :
    (∀ k, out.keyCol k = (df4.keyCol k).map fillna) ∧
    (∀ k xs, df4.keyCol k = some xs → xs.any (fun o => o.isSome) = true →
      ∃ ys, out.keyCol k = some ys ∧ ys.all (fun o => o.isSome) = true) := by
  obtain ⟨df2, df3, cnt, h2, h3, h4, hout⟩ := cleanStages_ok_elim h
  rw [himp] at hout
  have hkey : ∀ k, out.keyCol k = (df4.keyCol k).map fillna := by
    intro k
    rw [hout]
    cases c.add_features with
    | true => rw [if_pos rfl, engineerFeatures_keyCol, if_pos rfl, imputeMedian_keyCol]
    | false =>
      rw [if_neg (by simp), if_pos rfl, imputeMedian_keyCol]
  refine ⟨hkey, ?_⟩
  intro k xs hxs hany
  refine ⟨fillna xs, ?_, fillna_all_isSome hany⟩
  rw [hkey k, hxs]
  rfl

lemma zeroNight_ok_presence {thr : ℚ} {df d2 : DF}
    (h : zeroNightNegatives thr df = .ok d2) :
    df.GHI.isSome = true ∧ df.DNI.isSome = true ∧ df.DHI.isSome = true := by
  unfold zeroNightNegatives at h
  cases hg : df.GHI with
  | none => rw [hg] at h; simp at h
  | some g =>
    cases hd : df.DNI with
    | none => rw [hg, hd] at h; simp at h
    | some d =>
      cases hh : df.DHI with
      | none => rw [hg, hd, hh] at h; simp at h
      | some h3 => exact ⟨rfl, rfl, rfl⟩

lemma dayCore_ok_presence {thr : ℚ} {df d2 : DF} (h : dayCore thr df = .ok d2) :
    df.GHI.isSome = true ∧ df.DNI.isSome = true ∧ df.DHI.isSome = true := by
  unfold dayCore at h
  cases hg : df.GHI with
  | none => rw [hg] at h; simp at h
  | some g =>
    cases hd : df.DNI with
    | none => rw [hg, hd] at h; simp at h
    | some d =>
      cases hh : df.DHI with
      | none => rw [hg, hd, hh] at h; simp at h
      | some h3 => exact ⟨rfl, rfl, rfl⟩

lemma fixDaytime_ok_presence {thr : ℚ} {df d2 : DF}
    (h : fixDaytimeNegatives thr df = .ok d2) :
    df.GHI.isSome = true ∧ df.DNI.isSome = true ∧ df.DHI.isSome = true ∧
      (df.Hour.isSome = true ∨ df.Timestamp.isSome = true) := by
  unfold fixDaytimeNegatives at h
  cases hHr : df.Hour with
  | some hr =>
    rw [hHr] at h
    obtain ⟨h1, h2, h3⟩ := dayCore_ok_presence h
    exact ⟨h1, h2, h3, Or.inl rfl⟩
  | none =>
    rw [hHr] at h
    cases hTs : df.Timestamp with
    | none => rw [hTs] at h; simp at h
    | some ts =>
      rw [hTs] at h
      obtain ⟨h1, h2, h3⟩ := dayCore_ok_presence h
      exact ⟨by simpa using h1, by simpa using h2, by simpa using h3, Or.inr rfl⟩

lemma clipOutliers_ok_presence {t : ℚ} {df : DF} {p : DF × ℕ}
    (h : clipOutliers t df = .ok p) :
    df.GHI.isSome = true ∧ df.DNI.isSome = true ∧ df.DHI.isSome = true ∧
      df.ModA.isSome = true ∧ df.ModB.isSome = true ∧ df.WS.isSome = true ∧
      df.WSgust.isSome = true := by
  unfold clipOutliers at h
  cases hg : df.GHI with
  | none => rw [hg] at h; simp at h
  | some g =>
    cases hd : df.DNI with
    | none => rw [hg, hd] at h; simp at h
    | some d =>
      cases hh : df.DHI with
      | none => rw [hg, hd, hh] at h; simp at h
      | some h3 =>
        cases hma : df.ModA with
        | none => rw [hg, hd, hh, hma] at h; simp at h
        | some ma =>
          cases hmb : df.ModB with
          | none => rw [hg, hd, hh, hma, hmb] at h; simp at h
          | some mb =>
            cases hws : df.WS with
            | none => rw [hg, hd, hh, hma, hmb, hws] at h; simp at h
            | some ws =>
              cases hwg : df.WSgust with
              | none => rw [hg, hd, hh, hma, hmb, hws, hwg] at h; simp at h
              | some wg => exact ⟨rfl, rfl, rfl, rfl, rfl, rfl, rfl⟩

/-- C6 (amended): the feature-engineering stage is a no-op for a missing
column, but the night-time and day-time negative-correction stages are not:
they raise a lookup error whenever one of the three irradiance columns is
absent (the day-time stage also when both `Hour` and `Timestamp` are
absent), and the z-score stage fails when any of the seven channels is
absent. -/
theorem missing_column_behavior :
    (∀ (thr : ℚ) (df : DF), (df.GHI = none ∨ df.DNI = none ∨ df.DHI = none) →
        ∃ msg, zeroNightNegatives thr df = .error msg) ∧
    (∀ (thr : ℚ) (df : DF), (df.GHI = none ∨ df.DNI = none ∨ df.DHI = none) →
        ∃ msg, fixDaytimeNegatives thr df = .error msg) ∧
    (∀ (thr : ℚ) (df : DF), df.Hour = none → df.Timestamp = none →
        ∃ msg, fixDaytimeNegatives thr df = .error msg) ∧
    (∀ (t : ℚ) (df : DF), (df.GHI = none ∨ df.DNI = none ∨ df.DHI = none ∨
        df.ModA = none ∨ df.ModB = none ∨ df.WS = none ∨ df.WSgust = none) →
        ∃ msg, clipOutliers t df = .error msg) ∧
    (∀ df : DF, df.Timestamp = none →
        (engineerFeatures df).Hour = df.Hour ∧ (engineerFeatures df).Month = df.Month) ∧
    (∀ df : DF, df.Precipitation = none →
        (engineerFeatures df).HasRain = df.HasRain) := by
  refine ⟨?_, ?_, ?_, ?_, ?_, ?_⟩
  · intro thr df hmiss
    cases hres : zeroNightNegatives thr df with
    | error e => exact ⟨e, rfl⟩
    | ok d2 =>
      exfalso
      obtain ⟨p1, p2, p3⟩ := zeroNight_ok_presence hres
      rcases hmiss with hm | hm | hm
      · rw [hm] at p1; simp at p1
      · rw [hm] at p2; simp at p2
      · rw [hm] at p3; simp at p3
  · intro thr df hmiss
    cases hres : fixDaytimeNegatives thr df with
    | error e => exact ⟨e, rfl⟩
    | ok d2 =>
      exfalso
      obtain ⟨p1, p2, p3, -⟩ := fixDaytime_ok_presence hres
      rcases hmiss with hm | hm | hm
      · rw [hm] at p1; simp at p1
      · rw [hm] at p2; simp at p2
      · rw [hm] at p3; simp at p3
  · intro thr df hH hT
    cases hres : fixDaytimeNegatives thr df with
    | error e => exact ⟨e, rfl⟩
    | ok d2 =>
      exfalso
      obtain ⟨-, -, -, p4⟩ := fixDaytime_ok_presence hres
      rcases p4 with p | p
      · rw [hH] at p; simp at p
      · rw [hT] at p; simp at p
  · intro t df hmiss
    cases hres : clipOutliers t df with
    | error e => exact ⟨e, rfl⟩
    | ok p =>
      exfalso
      obtain ⟨p1, p2, p3, p4, p5, p6, p7⟩ := clipOutliers_ok_presence hres
      rcases hmiss with hm | hm | hm | hm | hm | hm | hm
      · rw [hm] at p1; simp at p1
      · rw [hm] at p2; simp at p2
      · rw [hm] at p3; simp at p3
      · rw [hm] at p4; simp at p4
      · rw [hm] at p5; simp at p5
      · rw [hm] at p6; simp at p6
      · rw [hm] at p7; simp at p7
  · intro df hT
    cases hP : df.Precipitation <;> simp [engineerFeatures, hT, hP]
  · intro df hP
    cases hT : df.Timestamp <;> simp [engineerFeatures, hT, hP]

/-- C7 (amended): with the two library test functions as parameters, the
`app/utils.py` version returns its structured error dictionary exactly when
fewer than two country groups exist in the combined table (a country whose
metric values are all missing still counts as a group, since the
`metric in group.columns` guard is table-level); with two or more groups it
returns the two p-values when both library calls succeed and an error
dictionary carrying the library's message when one raises; it never raises
itself.  The `comparison_utils.py` variant instead returns Python `None` —
a value carrying no error message — both when fewer than two of its loaded
tables contain the metric column and when a library call raises. -/
theorem statistical_tests_behavior :
    (∀ (anova kruskal : List (List ℚ) → Except String ℚ) (df : List CRow),
        ((countriesOf df).map (groupVals df)).length < 2 →
        runStatisticalTests anova kruskal df =
          .err "Not enough groups for statistical testing.") ∧
    (∀ (anova kruskal : List (List ℚ) → Except String ℚ) (df : List CRow) (a k : ℚ),
        2 ≤ ((countriesOf df).map (groupVals df)).length →
        anova ((countriesOf df).map (groupVals df)) = .ok a →
        kruskal ((countriesOf df).map (groupVals df)) = .ok k →
        runStatisticalTests anova kruskal df = .pvals a k) ∧
    (∀ (anova kruskal : List (List ℚ) → Except String ℚ) (df : List CRow) (e : String),
        2 ≤ ((countriesOf df).map (groupVals df)).length →
        anova ((countriesOf df).map (groupVals df)) = .error e →
        runStatisticalTests anova kruskal df = .err e) ∧
    (∀ (anova kruskal : List (List ℚ) → Except String ℚ) (df : List CRow) (a : ℚ)
        (e : String),
        2 ≤ ((countriesOf df).map (groupVals df)).length →
        anova ((countriesOf df).map (groupVals df)) = .ok a →
        kruskal ((countriesOf df).map (groupVals df)) = .error e →
        runStatisticalTests anova kruskal df = .err e) ∧
    (∀ (anova kruskal : List (List ℚ) → Except String ℚ)
        (data : List (String × Option (List Val))),
        (cmGroups data).length < 2 →
        cmRunStatisticalTests anova kruskal data = .noneRes) ∧
    (∀ (anova kruskal : List (List ℚ) → Except String ℚ)
        (data : List (String × Option (List Val))) (e : String),
        2 ≤ (cmGroups data).length →
        anova (cmGroups data) = .error e →
        cmRunStatisticalTests anova kruskal data = .noneRes) := by
  refine ⟨?_, ?_, ?_, ?_, ?_, ?_⟩
  · intro anova kruskal df hlt
    simp only [runStatisticalTests]
    rw [if_pos hlt]
  · intro anova kruskal df a k hge hA hK
    simp only [runStatisticalTests]
    rw [if_neg (by omega), hA, hK]
  · intro anova kruskal df e hge hA
    simp only [runStatisticalTests]
    rw [if_neg (by omega), hA]
  · intro anova kruskal df a e hge hA hK
    simp only [runStatisticalTests]
    rw [if_neg (by omega), hA, hK]
  · intro anova kruskal data hlt
    simp only [cmRunStatisticalTests]
    rw [if_pos hlt]
  · intro anova kruskal data e hge hA
    simp only [cmRunStatisticalTests]
    rw [if_neg (by omega), hA]

/-- C9: one call of `clean` leaves the caller's table and the cleaner's
state unchanged (the method copies its argument before the in-place stages
and assigns no attribute), and its result is fully determined by the input
table together with the three configuration parameters: any cleaner
agreeing on `z_thresh`, `impute` and `add_features` produces the same
result. -/
theorem clean_pure_and_config_determined (c1 c2 : SolarCleaner) (df : DF)
    (hz : c1.z_thresh = c2.z_thresh) (hi : c1.impute = c2.impute)
    (ha : c1.add_features = c2.add_features) :
    cleanCall c1 df = (df, c1, SolarCleaner.clean c2 df) := by
  have hc : c1 = c2 := by
    cases c1; cases c2
    simp_all
  rw [cleanCall, hc]

lemma all_false_of_getD (m : List Bool)
    (h : ∀ i, i < m.length → m.getD i false = false) : ∀ b ∈ m, b = false := by
  intro b hb
  obtain ⟨i, hi, hbi⟩ := List.mem_iff_getElem.mp hb
  have := h i hi
  rw [List.getD_eq_getElem?_getD, List.getElem?_eq_getElem hi] at this
  simpa [hbi] using this

lemma zeroNight_eq (thr : ℚ) (df : DF) (g d h : List Val)
    (hg : df.GHI = some g) (hd : df.DNI = some d) (hh : df.DHI = some h) :
    zeroNightNegatives thr df =
      .ok { df with
        GHI := some (applyFix (List.zipWith (fun a b => a && b)
          (nightMask thr g d h) (negMask g d h)) g)
        DNI := some (applyFix (List.zipWith (fun a b => a && b)
          (nightMask thr g d h) (negMask g d h)) d)
        DHI := some (applyFix (List.zipWith (fun a b => a && b)
          (nightMask thr g d h) (negMask g d h)) h) } := by
  simp only [zeroNightNegatives, hg, hd, hh]

lemma dayCore_eq (thr : ℚ) (df : DF) (g d h : List Val)
    (hg : df.GHI = some g) (hd : df.DNI = some d) (hh : df.DHI = some h) :
    dayCore thr df =
      .ok { df with
        GHI := some (applyFix (List.zipWith (fun a b => a && b)
          (dayMask thr g d h) (negMask g d h)) g)
        DNI := some (applyFix (List.zipWith (fun a b => a && b)
          (dayMask thr g d h) (negMask g d h)) d)
        DHI := some (applyFix (List.zipWith (fun a b => a && b)
          (dayMask thr g d h) (negMask g d h)) h) } := by
  simp only [dayCore, hg, hd, hh]

lemma zeroNight_id (thr : ℚ) (df : DF) (g d h : List Val)
    (hw : df.WFb = true) (hg : df.GHI = some g) (hd : df.DNI = some d)
    (hh : df.DHI = some h)
    (hmask : ∀ i, i < df.nrows → (nightAtI thr g d h i && negAtI g d h i) = false) :
    zeroNightNegatives thr df = .ok df := by
  obtain ⟨-, hG, hD, hH, -⟩ := WFb_elim df hw
  have hgl : g.length = df.nrows := olen_some (hg ▸ hG)
  have hdl : d.length = df.nrows := olen_some (hd ▸ hD)
  have hhl : h.length = df.nrows := olen_some (hh ▸ hH)
  set m := List.zipWith (fun a b => a && b) (nightMask thr g d h) (negMask g d h) with hm
  have hml : m.length = df.nrows := by
    rw [hm, List.length_zipWith, nightMask, negMask, length_zipW3, length_zipW3,
      hgl, hdl, hhl]
    omega
  have hfalse : ∀ b ∈ m, b = false := by
    refine all_false_of_getD m (fun i hi => ?_)
    rw [hm, getD_fixmask thr g d h i (by omega) (by omega) (by omega)]
    exact hmask i (by omega)
  rw [zeroNight_eq thr df g d h hg hd hh, ← hm,
    applyFix_of_false m g hfalse (by omega), applyFix_of_false m d hfalse (by omega),
    applyFix_of_false m h hfalse (by omega), ← hg, ← hd, ← hh]

lemma dayCore_id (thr : ℚ) (df : DF) (g d h : List Val)
    (hgl : g.length = df.nrows) (hdl : d.length = df.nrows) (hhl : h.length = df.nrows)
    (hg : df.GHI = some g) (hd : df.DNI = some d) (hh : df.DHI = some h)
    (hmask : ∀ i, i < df.nrows → (dayAtI thr g d h i && negAtI g d h i) = false) :
    dayCore thr df = .ok df := by
  set m := List.zipWith (fun a b => a && b) (dayMask thr g d h) (negMask g d h) with hm
  have hml : m.length = df.nrows := by
    rw [hm, List.length_zipWith, dayMask, negMask, length_zipW3, length_zipW3,
      hgl, hdl, hhl]
    omega
  have hfalse : ∀ b ∈ m, b = false := by
    refine all_false_of_getD m (fun i hi => ?_)
    rw [hm, getD_daymask thr g d h i (by omega) (by omega) (by omega)]
    exact hmask i (by omega)
  rw [dayCore_eq thr df g d h hg hd hh, ← hm,
    applyFix_of_false m g hfalse (by omega), applyFix_of_false m d hfalse (by omega),
    applyFix_of_false m h hfalse (by omega), ← hg, ← hd, ← hh]

lemma fixDaytime_id (thr : ℚ) (df : DF) (g d h : List Val) (hr : List Val)
    (hw : df.WFb = true) (hg : df.GHI = some g) (hd : df.DNI = some d)
    (hh : df.DHI = some h) (hHr : df.Hour = some hr)
    (hmask : ∀ i, i < df.nrows → (dayAtI thr g d h i && negAtI g d h i) = false) :
    fixDaytimeNegatives thr df = .ok df := by
  obtain ⟨-, hG, hD, hH, -⟩ := WFb_elim df hw
  rw [fixDaytimeNegatives, hHr]
  exact dayCore_id thr df g d h (olen_some (hg ▸ hG)) (olen_some (hd ▸ hD))
    (olen_some (hh ▸ hH)) hg hd hh hmask

lemma sampleCells_range {β : Type} (xs : List (Option β)) :
    sampleCells xs (List.range xs.length) = xs := by
  refine List.ext_getElem (by simp [sampleCells]) ?_
  intro i h1 h2
  have hi : i < xs.length := h2
  have hr : i < (List.range xs.length).length := by simpa using hi
  simp only [sampleCells, List.getElem_map, List.getElem_range,
    List.getD_eq_getElem?_getD, List.getElem?_eq_getElem hi]
  rfl

lemma clip_id (t : ℚ) (df : DF) (g d h ma mb ws wg : List Val)
    (hw : df.WFb = true) (hg : df.GHI = some g) (hd : df.DNI = some d)
    (hh : df.DHI = some h) (hma : df.ModA = some ma) (hmb : df.ModB = some mb)
    (hws : df.WS = some ws) (hwg : df.WSgust = some wg)
    (hmask : ∀ i, i < df.nrows → rowIsOutlier t df i = false) :
    clipOutliers t df = .ok (df, 0) := by
  obtain ⟨hT, hG, hD, hH, hMA, hMB, hWS, hWG, hTa, hRH, hPr, hHo, hMo, hHa⟩ := WFb_elim df hw
  have hkept : keptIdx t df = List.range df.nrows := by
    unfold keptIdx
    refine List.filter_eq_self.mpr (fun i hi => ?_)
    rw [hmask i (List.mem_range.mp hi)]
    rfl
  have hcnt : ((List.range df.nrows).filter (fun i => rowIsOutlier t df i)).length = 0 := by
    rw [List.length_eq_zero, List.filter_eq_nil_iff]
    intro i hi
    rw [hmask i (List.mem_range.mp hi)]
    simp
  have hsample : ∀ (xs : List Val), xs.length = df.nrows →
      sampleCells xs (keptIdx t df) = xs := by
    intro xs hxl
    rw [hkept, ← hxl, sampleCells_range]
  have hsampleT : ∀ (xs : List (Option Ts)), xs.length = df.nrows →
      sampleCells xs (keptIdx t df) = xs := by
    intro xs hxl
    rw [hkept, ← hxl, sampleCells_range]
  have hopt : ∀ (c : Option (List Val)), olen c df.nrows = true →
      c.map (fun xs => sampleCells xs (keptIdx t df)) = c := by
    intro c hc
    cases c with
    | none => rfl
    | some xs => exact congrArg some (hsample xs (olen_some hc))
  rw [clipOutliers_char t df g d h ma mb ws wg hw hg hd hh hma hmb hws hwg, hcnt]
  refine congrArg Except.ok (Prod.ext ?_ rfl)
  refine DF.ext ?_ ?_ ?_ ?_ ?_ ?_ ?_ ?_ ?_ ?_ ?_ ?_ ?_ ?_ ?_ <;> dsimp only
  · rw [hkept]; simp
  · cases hTs : df.Timestamp with
    | none => rfl
    | some ts =>
      rw [hTs] at hT
      exact congrArg some (hsampleT ts (olen_some hT))
  · rw [hsample g (olen_some (hg ▸ hG)), hg]
  · rw [hsample d (olen_some (hd ▸ hD)), hd]
  · rw [hsample h (olen_some (hh ▸ hH)), hh]
  · rw [hsample ma (olen_some (hma ▸ hMA)), hma]
  · rw [hsample mb (olen_some (hmb ▸ hMB)), hmb]
  · rw [hsample ws (olen_some (hws ▸ hWS)), hws]
  · rw [hsample wg (olen_some (hwg ▸ hWG)), hwg]
  · exact hopt df.Tamb hTa
  · exact hopt df.RH hRH
  · exact hopt df.Precipitation hPr
  · exact hopt df.Hour hHo
  · exact hopt df.Month hMo
  · exact hopt df.HasRain hHa

lemma someVals_eq_nil_of_all_none {xs : List Val} (h : ∀ o ∈ xs, o = none) :
    someVals xs = [] := by
  induction xs with
  | nil => rfl
  | cons o xs ih =>
    have ho : o = none := h o (List.mem_cons_self o xs)
    subst ho
    exact ih (fun o hmem => h o (List.mem_cons_of_mem _ hmem))

lemma fillna_of_all_isSome {xs : List Val} (h : ∀ o ∈ xs, o.isSome = true) :
    fillna xs = xs := by
  unfold fillna
  have := List.map_congr_left (l := xs)
    (f := fun o => match o with | some x => some x | none => medianOf xs) (g := id)
    (fun o ho => by
      cases o with
      | some x => rfl
      | none => exact absurd (h none ho) (by simp))
  rw [this, List.map_id]

lemma fillna_of_all_none {xs : List Val} (h : ∀ o ∈ xs, o = none) :
    fillna xs = xs := by
  have hmed : medianOf xs = none := by
    unfold medianOf
    rw [someVals_eq_nil_of_all_none h]
    rfl
  unfold fillna
  have := List.map_congr_left (l := xs)
    (f := fun o => match o with | some x => some x | none => medianOf xs) (g := id)
    (fun o ho => by
      cases o with
      | some x => rfl
      | none => simpa using hmed)
  rw [this, List.map_id]

lemma fillna_idem (xs : List Val) : fillna (fillna xs) = fillna xs := by
  by_cases h : xs.any (fun o => o.isSome) = true
  · exact fillna_of_all_isSome (List.all_eq_true.mp (fillna_all_isSome h))
  · have hnone : ∀ o ∈ xs, o = none := by
      intro o ho
      cases o with
      | none => rfl
      | some x =>
        exact absurd (List.any_eq_true.mpr ⟨some x, ho, rfl⟩) h
    rw [fillna_of_all_none hnone, fillna_of_all_none hnone]

lemma imputeMedian_id (df : DF)
    (hfix : ∀ (k : KCol) (xs : List Val), df.keyCol k = some xs → fillna xs = xs) :
    imputeMedian df = df := by
  have hcol : ∀ k : KCol, (df.keyCol k).map fillna = df.keyCol k := by
    intro k
    cases hk : df.keyCol k with
    | none => rfl
    | some xs => exact congrArg some (hfix k xs hk)
  refine DF.ext rfl rfl ?_ ?_ ?_ ?_ ?_ ?_ ?_ ?_ ?_ rfl rfl rfl rfl
  · exact hcol KCol.ghi
  · exact hcol KCol.dni
  · exact hcol KCol.dhi
  · exact hcol KCol.moda
  · exact hcol KCol.modb
  · exact hcol KCol.ws
  · exact hcol KCol.wsgust
  · exact hcol KCol.tamb
  · exact hcol KCol.rh

lemma engineerFeatures_consistent (d : DF) :
    ((engineerFeatures d).Timestamp = none ∨
      ∃ ts, (engineerFeatures d).Timestamp = some ts ∧
        (engineerFeatures d).Hour = some (ts.map hourify) ∧
        (engineerFeatures d).Month = some (ts.map monthify)) ∧
    ((engineerFeatures d).Precipitation = none ∨
      ∃ p, (engineerFeatures d).Precipitation = some p ∧
        (engineerFeatures d).HasRain = some (p.map rainCell)) := by
  unfold engineerFeatures
  cases hT : d.Timestamp with
  | none =>
    cases hP : d.Precipitation with
    | none =>
      dsimp only
      rw [hP]
      exact ⟨Or.inl hT, Or.inl hP⟩
    | some p =>
      dsimp only
      rw [hP]
      exact ⟨Or.inl hT, Or.inr ⟨p, rfl, rfl⟩⟩
  | some ts =>
    cases hP : d.Precipitation with
    | none =>
      dsimp only
      exact ⟨Or.inr ⟨ts, rfl, rfl, rfl⟩, Or.inl rfl⟩
    | some p =>
      dsimp only
      exact ⟨Or.inr ⟨ts, rfl, rfl, rfl⟩, Or.inr ⟨p, rfl, rfl⟩⟩

lemma engineerFeatures_id (d1 : DF)
    (hT : d1.Timestamp = none ∨ ∃ ts, d1.Timestamp = some ts ∧
      d1.Hour = some (ts.map hourify) ∧ d1.Month = some (ts.map monthify))
    (hP : d1.Precipitation = none ∨ ∃ p, d1.Precipitation = some p ∧
      d1.HasRain = some (p.map rainCell)) :
    engineerFeatures d1 = d1 := by
  obtain hTs | ⟨ts, hTs, hHour, hMonth⟩ := hT <;> obtain hPr | ⟨p, hPr, hRain⟩ := hP <;>
    simp only [engineerFeatures, hTs, hPr]
  · rw [← hRain, ← hTs, ← hPr]
  · rw [← hHour, ← hMonth, ← hTs, ← hPr]
  · rw [← hHour, ← hMonth, ← hRain, ← hTs, ← hPr]

lemma dayCore_ok_fields {thr : ℚ} {d d2 : DF} (h : dayCore thr d = .ok d2) :
    d2.nrows = d.nrows ∧ d2.Timestamp = d.Timestamp ∧ d2.ModA = d.ModA ∧
    d2.ModB = d.ModB ∧ d2.WS = d.WS ∧ d2.WSgust = d.WSgust ∧ d2.Tamb = d.Tamb ∧
    d2.RH = d.RH ∧ d2.Precipitation = d.Precipitation ∧ d2.Hour = d.Hour ∧
    d2.Month = d.Month ∧ d2.HasRain = d.HasRain := by
  unfold dayCore at h
  cases hg : d.GHI with
  | none => rw [hg] at h; simp at h
  | some g =>
    cases hd : d.DNI with
    | none => rw [hg, hd] at h; simp at h
    | some dd =>
      cases hh : d.DHI with
      | none => rw [hg, hd, hh] at h; simp at h
      | some h3 =>
        rw [hg, hd, hh] at h
        injection h with h
        subst h
        exact ⟨rfl, rfl, rfl, rfl, rfl, rfl, rfl, rfl, rfl, rfl, rfl, rfl⟩

lemma fixDaytime_ok_hour {thr : ℚ} {d d3 : DF}
    (h : fixDaytimeNegatives thr d = .ok d3) : d3.Hour.isSome = true := by
  unfold fixDaytimeNegatives at h
  cases hHr : d.Hour with
  | some hr =>
    rw [hHr] at h
    have hfields := dayCore_ok_fields h
    rw [hfields.2.2.2.2.2.2.2.2.2.1, hHr]
    rfl
  | none =>
    rw [hHr] at h
    cases hTs : d.Timestamp with
    | none => rw [hTs] at h; simp at h
    | some ts =>
      rw [hTs] at h
      have hfields := dayCore_ok_fields h
      rw [hfields.2.2.2.2.2.2.2.2.2.1]
      rfl

lemma clipOutliers_ok_shape {t : ℚ} {d d4 : DF} {n : ℕ}
    (h : clipOutliers t d = .ok (d4, n)) :
    d4.GHI.isSome = true ∧ d4.DNI.isSome = true ∧ d4.DHI.isSome = true ∧
    d4.ModA.isSome = true ∧ d4.ModB.isSome = true ∧ d4.WS.isSome = true ∧
    d4.WSgust.isSome = true ∧ d4.Hour.isSome = d.Hour.isSome := by
  unfold clipOutliers at h
  cases hg : d.GHI with
  | none => rw [hg] at h; simp at h
  | some g =>
    cases hd : d.DNI with
    | none => rw [hg, hd] at h; simp at h
    | some dd =>
      cases hh : d.DHI with
      | none => rw [hg, hd, hh] at h; simp at h
      | some h3 =>
        cases hma : d.ModA with
        | none => rw [hg, hd, hh, hma] at h; simp at h
        | some ma =>
          cases hmb : d.ModB with
          | none => rw [hg, hd, hh, hma, hmb] at h; simp at h
          | some mb =>
            cases hws : d.WS with
            | none => rw [hg, hd, hh, hma, hmb, hws] at h; simp at h
            | some ws =>
              cases hwg : d.WSgust with
              | none => rw [hg, hd, hh, hma, hmb, hws, hwg] at h; simp at h
              | some wg =>
                rw [hg, hd, hh, hma, hmb, hws, hwg] at h
                injection h with h
                injection h with h1 h2
                subst h1
                refine ⟨rfl, rfl, rfl, rfl, rfl, rfl, rfl, ?_⟩
                simp

lemma engineerFeatures_timestamp (d : DF) :
    (engineerFeatures d).Timestamp = d.Timestamp := by
  cases hT : d.Timestamp <;> cases hP : d.Precipitation <;>
    simp [engineerFeatures, hT, hP]

lemma engineerFeatures_hour_none {d : DF} (hT : d.Timestamp = none) :
    (engineerFeatures d).Hour = d.Hour := by
  cases hP : d.Precipitation <;> simp [engineerFeatures, hT, hP]

lemma imputeMedian_hour (d : DF) : (imputeMedian d).Hour = d.Hour := rfl

lemma imputeMedian_timestamp (d : DF) : (imputeMedian d).Timestamp = d.Timestamp := rfl

/-- C8 (amended): running the cleaner again on the output of a successful
clean yields the output unchanged, under the claim's assumption that the
second pass finds no new negatives (the night and day fix conditions hold in
no row of the cleaned table) and no new outliers (no row's absolute z-score
over the cleaned table exceeds the threshold), strengthened — as the
counterexample forces — by the assumption that the second pass drops no
column (no column of the cleaned, well-formed table is entirely missing). -/
theorem clean_idempotent_on_cleaned (c : SolarCleaner) (df df4 df1 : DF)
    (h1 : cleanStages c df = .ok (df4, df1))
    (hw1 : df1.WFb = true)
    (hdrop : dropEmptyColumns 1 df1 = df1)
    (hnofix : ∀ g d h, df1.GHI = some g → df1.DNI = some d → df1.DHI = some h →
      ∀ i, i < df1.nrows →
        (nightAtI 1 g d h i && negAtI g d h i) = false ∧
        (dayAtI 1 g d h i && negAtI g d h i) = false)
    (hnoout : ∀ i, i < df1.nrows → rowIsOutlier c.z_thresh df1 i = false) :
    SolarCleaner.clean c df1 = .ok df1 := by
  obtain ⟨df2, df3, cnt, h2, h3, h4, hout⟩ := cleanStages_ok_elim h1
  obtain ⟨s1, s2, s3, s4, s5, s6, s7, sHour⟩ := clipOutliers_ok_shape h4
  have hHour4 : df4.Hour.isSome = true := by rw [sHour]; exact fixDaytime_ok_hour h3
  set df5 := (if c.impute then imputeMedian df4 else df4) with hdf5
  have hout' : df1 = (if c.add_features then engineerFeatures df5 else df5) := hout
  have hkeyRel : ∀ k, df1.keyCol k =
      (if c.impute then (df4.keyCol k).map fillna else df4.keyCol k) := by
    intro k
    rw [hout', apply_ite (fun d => DF.keyCol d k), engineerFeatures_keyCol, ite_self,
      hdf5, apply_ite (fun d => DF.keyCol d k), imputeMedian_keyCol]
  have hkeySome : ∀ k, (df1.keyCol k).isSome = (df4.keyCol k).isSome := by
    intro k
    rw [hkeyRel k]
    cases hI : c.impute <;> simp
  have hg1 : df1.GHI.isSome = true := by
    have := hkeySome KCol.ghi
    simpa [DF.keyCol, s1] using this
  have hd1 : df1.DNI.isSome = true := by
    have := hkeySome KCol.dni
    simpa [DF.keyCol, s2] using this
  have hh1 : df1.DHI.isSome = true := by
    have := hkeySome KCol.dhi
    simpa [DF.keyCol, s3] using this
  have hma1 : df1.ModA.isSome = true := by
    have := hkeySome KCol.moda
    simpa [DF.keyCol, s4] using this
  have hmb1 : df1.ModB.isSome = true := by
    have := hkeySome KCol.modb
    simpa [DF.keyCol, s5] using this
  have hws1 : df1.WS.isSome = true := by
    have := hkeySome KCol.ws
    simpa [DF.keyCol, s6] using this
  have hwg1 : df1.WSgust.isSome = true := by
    have := hkeySome KCol.wsgust
    simpa [DF.keyCol, s7] using this
  have hHour5 : df5.Hour = df4.Hour := by
    rw [hdf5, apply_ite (fun d => DF.Hour d), imputeMedian_hour, ite_self]
  have hHour1 : df1.Hour.isSome = true := by
    rw [hout']
    cases hA : c.add_features with
    | false =>
      rw [if_neg (by simp), hHour5]
      exact hHour4
    | true =>
      rw [if_pos rfl]
      cases hTs5 : df5.Timestamp with
      | none =>
        rw [engineerFeatures_hour_none hTs5, hHour5]
        exact hHour4
      | some ts =>
        rcases (engineerFeatures_consistent df5).1 with hcontra | ⟨ts2, -, hHr, -⟩
        · rw [engineerFeatures_timestamp, hTs5] at hcontra
          simp at hcontra
        · rw [hHr]
          rfl
  obtain ⟨g1, hgg⟩ := Option.isSome_iff_exists.mp hg1
  obtain ⟨d1c, hdd⟩ := Option.isSome_iff_exists.mp hd1
  obtain ⟨h1c, hhh⟩ := Option.isSome_iff_exists.mp hh1
  obtain ⟨ma1, hmam⟩ := Option.isSome_iff_exists.mp hma1
  obtain ⟨mb1, hmbm⟩ := Option.isSome_iff_exists.mp hmb1
  obtain ⟨ws1, hwsm⟩ := Option.isSome_iff_exists.mp hws1
  obtain ⟨wg1, hwgm⟩ := Option.isSome_iff_exists.mp hwg1
  obtain ⟨hr1, hhrm⟩ := Option.isSome_iff_exists.mp hHour1
  have e2 : zeroNightNegatives 1 df1 = .ok df1 :=
    zeroNight_id 1 df1 g1 d1c h1c hw1 hgg hdd hhh
      (fun i hi => (hnofix g1 d1c h1c hgg hdd hhh i hi).1)
  have e3 : fixDaytimeNegatives 1 df1 = .ok df1 :=
    fixDaytime_id 1 df1 g1 d1c h1c hr1 hw1 hgg hdd hhh hhrm
      (fun i hi => (hnofix g1 d1c h1c hgg hdd hhh i hi).2)
  have e4 : clipOutliers c.z_thresh df1 = .ok (df1, 0) :=
    clip_id c.z_thresh df1 g1 d1c h1c ma1 mb1 ws1 wg1 hw1 hgg hdd hhh hmam hmbm
      hwsm hwgm hnoout
  have e5 : (if c.impute then imputeMedian df1 else df1) = df1 := by
    cases hI : c.impute with
    | false => rw [if_neg (by simp)]
    | true =>
      rw [if_pos rfl]
      refine imputeMedian_id df1 (fun k xs hxs => ?_)
      have := hkeyRel k
      rw [hI, if_pos rfl, hxs] at this
      obtain ⟨xs0, hxs0, hfe⟩ := (Option.map_eq_some.mp this.symm)
      rw [← hfe, fillna_idem]
  have e6 : (if c.add_features then engineerFeatures df1 else df1) = df1 := by
    cases hA : c.add_features with
    | false => rw [if_neg (by simp)]
    | true =>
      rw [if_pos rfl]
      have hdf1 : df1 = engineerFeatures df5 := by rw [hout', hA, if_pos rfl]
      refine engineerFeatures_id df1 ?_ ?_
      · rw [hdf1]
        exact (engineerFeatures_consistent df5).1
      · rw [hdf1]
        exact (engineerFeatures_consistent df5).2
  show (cleanStages c df1).map (fun p => p.2) = .ok df1
  rw [cleanStages]
  simp only [bind, Except.bind, hdrop, e2]
  rw [e3]
  dsimp only
  rw [e4]
  dsimp only
  rw [e5, e6]
  rfl

/-- The square-root-free test `exceedsCell` coincides with the literal
absolute-z-score reading over the reals: for a non-missing cell `x` and a
non-negative variance, it holds exactly when the variance is positive (a
zero variance makes the code's z-score `0/0 = NaN`, which compares false)
and `|x - mean| / sqrt var > t`, stated here multiplied through by
`sqrt var > 0`. -/
lemma exceedsCell_iff_abs_zscore (t mu vr x : ℚ) (hvr : 0 ≤ vr) :
    exceedsCell t mu vr (some x) = true ↔
      (0 < vr ∧ (t : ℝ) * Real.sqrt (vr : ℝ) < |(x : ℝ) - (mu : ℝ)|) := by
  have hvr' : (0 : ℝ) ≤ (vr : ℝ) := by exact_mod_cast hvr
  unfold exceedsCell
  dsimp only
  by_cases hv : 0 < vr
  · have hv' : (0 : ℝ) < (vr : ℝ) := by exact_mod_cast hv
    rw [if_pos hv]
    by_cases ht : t < 0
    · have ht' : (t : ℝ) < 0 := by exact_mod_cast ht
      rw [if_pos ht]
      simp only [true_iff]
      refine ⟨hv, lt_of_lt_of_le ?_ (abs_nonneg _)⟩
      exact mul_neg_of_neg_of_pos ht' (Real.sqrt_pos.mpr hv')
    · have ht' : (0 : ℝ) ≤ (t : ℝ) := by
        have : 0 ≤ t := le_of_not_lt ht
        exact_mod_cast this
      rw [if_neg ht]
      by_cases hc : t ^ 2 * vr < (x - mu) ^ 2
      · have hc' : ((t : ℝ)) ^ 2 * (vr : ℝ) < ((x : ℝ) - (mu : ℝ)) ^ 2 := by
          exact_mod_cast hc
        rw [if_pos hc]
        simp only [true_iff]
        refine ⟨hv, ?_⟩
        have hs : (t : ℝ) * Real.sqrt (vr : ℝ) = Real.sqrt ((t : ℝ) ^ 2 * (vr : ℝ)) := by
          rw [Real.sqrt_mul (sq_nonneg _), Real.sqrt_sq ht']
        rw [hs, ← Real.sqrt_sq_eq_abs]
        exact Real.sqrt_lt_sqrt (by positivity) hc'
      · rw [if_neg hc]
        simp only [Bool.false_eq_true, false_iff, not_and]
        intro _ hlt
        apply hc
        have hsq : ((t : ℝ) * Real.sqrt (vr : ℝ)) ^ 2 < |(x : ℝ) - (mu : ℝ)| ^ 2 := by
          have h0 : (0 : ℝ) ≤ (t : ℝ) * Real.sqrt (vr : ℝ) :=
            mul_nonneg ht' (Real.sqrt_nonneg _)
          exact pow_lt_pow_left₀ hlt h0 (by norm_num)
        rw [mul_pow, Real.sq_sqrt hvr', sq_abs] at hsq
        exact_mod_cast hsq
  · rw [if_neg hv]
    simp only [Bool.false_eq_true, false_iff, not_and]
    intro hv2
    exact absurd hv2 hv

theorem zeroNight_corrects_night_negatives_witness :
    wtNight.WFb = true ∧ wtNight.GHI = some [some (-5), some 800, some 0] ∧
    wtNight.DNI = some [some (-2), some 700, some 0] ∧
    wtNight.DHI = some [some (-1), some 300, some 0] ∧
    (∃ g2 d2 h2,
      zeroNightNegatives 1 wtNight =
        .ok { wtNight with GHI := some g2, DNI := some d2, DHI := some h2 } ∧
      g2.length = wtNight.nrows ∧ d2.length = wtNight.nrows ∧ h2.length = wtNight.nrows ∧
      ∀ i, i < wtNight.nrows →
        ((nightAtI 1 [some (-5), some 800, some 0] [some (-2), some 700, some 0]
            [some (-1), some 300, some 0] i &&
          negAtI [some (-5), some 800, some 0] [some (-2), some 700, some 0]
            [some (-1), some 300, some 0] i) = true →
          (∃ x, cellAt g2 i = some x ∧ 0 ≤ x ∧
            ∀ z, cellAt [some (-5), some 800, some 0] i = some z → 0 < z → x = z) ∧
          (∃ x, cellAt d2 i = some x ∧ 0 ≤ x ∧
            ∀ z, cellAt [some (-2), some 700, some 0] i = some z → 0 < z → x = z) ∧
          (∃ x, cellAt h2 i = some x ∧ 0 ≤ x ∧
            ∀ z, cellAt [some (-1), some 300, some 0] i = some z → 0 < z → x = z)) ∧
        ((nightAtI 1 [some (-5), some 800, some 0] [some (-2), some 700, some 0]
            [some (-1), some 300, some 0] i &&
          negAtI [some (-5), some 800, some 0] [some (-2), some 700, some 0]
            [some (-1), some 300, some 0] i) = false →
          cellAt g2 i = cellAt [some (-5), some 800, some 0] i ∧
          cellAt d2 i = cellAt [some (-2), some 700, some 0] i ∧
          cellAt h2 i = cellAt [some (-1), some 300, some 0] i)) :=
  ⟨by decide, rfl, rfl, rfl,
    zeroNight_corrects_night_negatives 1 wtNight _ _ _ (by decide) rfl rfl rfl⟩

theorem fixDaytime_corrects_day_negatives_witness :
    wtDay.WFb = true ∧ wtDay.GHI = some [some 800, some 0] ∧
    wtDay.DNI = some [some (-2), some 0] ∧ wtDay.DHI = some [some 300, some 0] ∧
    (wtDay.Hour.isSome = true ∨ wtDay.Timestamp.isSome = true) ∧
    (∃ df2 g2 d2 h2,
      fixDaytimeNegatives 1 wtDay = .ok df2 ∧
      df2.GHI = some g2 ∧ df2.DNI = some d2 ∧ df2.DHI = some h2 ∧
      g2.length = wtDay.nrows ∧ d2.length = wtDay.nrows ∧ h2.length = wtDay.nrows ∧
      ∀ i, i < wtDay.nrows →
        ((dayAtI 1 [some 800, some 0] [some (-2), some 0] [some 300, some 0] i &&
          negAtI [some 800, some 0] [some (-2), some 0] [some 300, some 0] i) = true →
          (∀ x, cellAt g2 i = some x → 0 ≤ x) ∧
          (∀ x, cellAt d2 i = some x → 0 ≤ x) ∧
          (∀ x, cellAt h2 i = some x → 0 ≤ x)) ∧
        ((dayAtI 1 [some 800, some 0] [some (-2), some 0] [some 300, some 0] i &&
          negAtI [some 800, some 0] [some (-2), some 0] [some 300, some 0] i) = false →
          cellAt g2 i = cellAt [some 800, some 0] i ∧
          cellAt d2 i = cellAt [some (-2), some 0] i ∧
          cellAt h2 i = cellAt [some 300, some 0] i)) :=
  ⟨by decide, rfl, rfl, rfl, Or.inl rfl,
    fixDaytime_corrects_day_negatives 1 wtDay _ _ _ (by decide) rfl rfl rfl (Or.inl rfl)⟩

theorem clipOutliers_drops_exactly_outliers_witness :
    wtClip.WFb = true ∧ wtClip.GHI = some [some 0, some 0, some 1, some 10] ∧
    wtClip.ModA = some [some 0, some 0, some 0, some 0] ∧
    clipOutliers 1 wtClip = .ok
      ({ nrows := (keptIdx 1 wtClip).length
         Timestamp := wtClip.Timestamp.map (fun xs => sampleCells xs (keptIdx 1 wtClip))
         GHI := some (sampleCells [some 0, some 0, some 1, some 10] (keptIdx 1 wtClip))
         DNI := some (sampleCells [some 0, some 0, some 0, some 0] (keptIdx 1 wtClip))
         DHI := some (sampleCells [some 0, some 0, some 0, some 0] (keptIdx 1 wtClip))
         ModA := some (sampleCells [some 0, some 0, some 0, some 0] (keptIdx 1 wtClip))
         ModB := some (sampleCells [some 0, some 0, some 0, some 0] (keptIdx 1 wtClip))
         WS := some (sampleCells [some 0, some 0, some 0, some 0] (keptIdx 1 wtClip))
         WSgust := some (sampleCells [some 0, some 0, some 0, some 0] (keptIdx 1 wtClip))
         Tamb := wtClip.Tamb.map (fun xs => sampleCells xs (keptIdx 1 wtClip))
         RH := wtClip.RH.map (fun xs => sampleCells xs (keptIdx 1 wtClip))
         Precipitation := wtClip.Precipitation.map
           (fun xs => sampleCells xs (keptIdx 1 wtClip))
         Hour := wtClip.Hour.map (fun xs => sampleCells xs (keptIdx 1 wtClip))
         Month := wtClip.Month.map (fun xs => sampleCells xs (keptIdx 1 wtClip))
         HasRain := wtClip.HasRain.map (fun xs => sampleCells xs (keptIdx 1 wtClip)) },
       ((List.range wtClip.nrows).filter (fun i => rowIsOutlier 1 wtClip i)).length) :=
  ⟨by decide, rfl, rfl,
    clipOutliers_drops_exactly_outliers 1 wtClip _ _ _ _ _ _ _ (by decide)
      rfl rfl rfl rfl rfl rfl rfl⟩

theorem clipOutliers_survivors_not_input_outliers_witness :
    wtClip.WFb = true ∧ wtClip.GHI = some [some 0, some 0, some 1, some 10] ∧
    (∀ df2 cnt, clipOutliers 1 wtClip = .ok (df2, cnt) →
      ∀ j, j < df2.nrows → ∃ i, i < wtClip.nrows ∧ rowIsOutlier 1 wtClip i = false ∧
        (∃ g2, df2.GHI = some g2 ∧
          cellAt g2 j = cellAt [some 0, some 0, some 1, some 10] i) ∧
        (∃ d2, df2.DNI = some d2 ∧
          cellAt d2 j = cellAt [some 0, some 0, some 0, some 0] i) ∧
        (∃ h2, df2.DHI = some h2 ∧
          cellAt h2 j = cellAt [some 0, some 0, some 0, some 0] i) ∧
        (∃ ma2, df2.ModA = some ma2 ∧
          cellAt ma2 j = cellAt [some 0, some 0, some 0, some 0] i) ∧
        (∃ mb2, df2.ModB = some mb2 ∧
          cellAt mb2 j = cellAt [some 0, some 0, some 0, some 0] i) ∧
        (∃ ws2, df2.WS = some ws2 ∧
          cellAt ws2 j = cellAt [some 0, some 0, some 0, some 0] i) ∧
        (∃ wg2, df2.WSgust = some wg2 ∧
          cellAt wg2 j = cellAt [some 0, some 0, some 0, some 0] i)) :=
  ⟨by decide, rfl,
    clipOutliers_survivors_not_input_outliers 1 wtClip _ _ _ _ _ _ _ (by decide)
      rfl rfl rfl rfl rfl rfl rfl⟩

/-- The outlier filter is a single pass, not iterative: on `wtClip` with
threshold 1 it keeps the row whose recomputed absolute z-score over the
surviving table exceeds the threshold. -/
theorem clip_recomputed_zscore_counterexample :
    clipOutliers 1 wtClip = .ok (wtClipOut, 1) ∧ 2 < wtClipOut.nrows ∧
      rowIsOutlier 1 wtClipOut 2 = true := by
  refine ⟨?_, by decide, ?_⟩
  · norm_num [clipOutliers, outlierMask, orZip, exCol, exceedsCell, meanOf, varOf,
      someVals, keepCol, countFalse, countTrue, wtClip, wtClipOut]
  · norm_num [rowIsOutlier, exceedsAt, exceedsCell, meanOf, varOf, someVals, cellAt,
      wtClipOut]

theorem clean_imputes_key_columns_witness :
    wcFix.impute = true ∧ cleanStages wcFix wtFix = .ok (wtFix, wtFix) ∧
    ((∀ k, wtFix.keyCol k = (wtFix.keyCol k).map fillna) ∧
     (∀ k xs, wtFix.keyCol k = some xs → xs.any (fun o => o.isSome) = true →
        ∃ ys, wtFix.keyCol k = some ys ∧ ys.all (fun o => o.isSome) = true)) := by
  have hstages : cleanStages wcFix wtFix = .ok (wtFix, wtFix) := by
    norm_num [cleanStages, dropEmptyColumns, dropColIf, dropColIf.naCount',
      zeroNightNegatives, nightMask, negMask, zipW3, vlt, vgt, applyFix, clip0,
      fixDaytimeNegatives, dayCore, dayMask, clipOutliers, outlierMask, orZip, exCol,
      exceedsCell, meanOf, varOf, someVals, keepCol, countFalse, countTrue, imputeMedian,
      fillna, medianOf, sortQ, insQ, engineerFeatures, hourify, monthify, rainCell,
      wtFix, wcFix, bind, Except.bind]
    rfl
  exact ⟨rfl, hstages, clean_imputes_key_columns wcFix wtFix wtFix wtFix rfl hstages⟩

/-- Imputation does not remove every missing value: `wtImpute` has a `Tamb`
column present in the input, yet the cleaned table still carries missing
`Tamb` cells, because the column's surviving values are all missing and the
median is `NaN`. -/
theorem clean_impute_missing_counterexample :
    wcImpute.impute = true ∧ wtImpute.Tamb = some [some 7, none, none, none] ∧
    SolarCleaner.clean wcImpute wtImpute = .ok wtImputeOut ∧
    wtImputeOut.Tamb = some [none, none, none] ∧
    (([none, none, none] : List Val).all (fun o => o.isSome)) = false := by
  refine ⟨rfl, rfl, ?_, rfl, by decide⟩
  norm_num [SolarCleaner.clean, cleanStages, dropEmptyColumns, dropColIf,
    dropColIf.naCount', zeroNightNegatives, nightMask, negMask, zipW3, vlt, vgt,
    applyFix, clip0, fixDaytimeNegatives, dayCore, dayMask, clipOutliers, outlierMask,
    orZip, exCol, exceedsCell, meanOf, varOf, someVals, keepCol, countFalse, countTrue,
    imputeMedian, fillna, medianOf, sortQ, insQ, engineerFeatures, hourify, monthify,
    rainCell, wtImpute, wtImputeOut, wcImpute, bind, Except.bind]
  rfl

theorem missing_column_behavior_witness :
    wtNoGHI.GHI = none ∧ (∃ msg, zeroNightNegatives 1 wtNoGHI = .error msg) :=
  ⟨rfl, missing_column_behavior.1 1 wtNoGHI (Or.inl rfl)⟩

/-- The night-time negative-correction stage raises a lookup error on a
table that lacks the GHI column: the stage is not a no-op there. -/
theorem night_stage_missing_column_counterexample :
    zeroNightNegatives 1 wtNoGHI = .error "KeyError: irradiance column absent" := rfl

theorem statistical_tests_behavior_witness :
    ((countriesOf [({ country := "benin", val := some 1 } : CRow)]).map
      (groupVals [({ country := "benin", val := some 1 } : CRow)])).length < 2 ∧
    runStatisticalTests okTest1 okTest2 [{ country := "benin", val := some 1 }] =
      .err "Not enough groups for statistical testing." :=
  ⟨by decide, statistical_tests_behavior.1 okTest1 okTest2
    [{ country := "benin", val := some 1 }] (by decide)⟩

/-- The `comparison_utils` variant returns Python `None` — not a value
carrying an error message — on a single loaded table, and the `app/utils`
version proceeds to the library tests (returning p-values, not a structured
error) when a second country group exists but its metric values are all
missing. -/
theorem statistical_tests_counterexample :
    cmRunStatisticalTests okTest1 okTest2 [("benin", some [some 1, some 2])] =
      .noneRes ∧
    runStatisticalTests okTest1 okTest2
      [{ country := "benin", val := some 1 }, { country := "togo", val := none }] =
      .pvals 1 2 := by
  constructor
  · decide
  · decide

theorem clean_idempotent_on_cleaned_witness :
    cleanStages wcFix wtFix = .ok (wtFix, wtFix) ∧ wtFix.WFb = true ∧
    dropEmptyColumns 1 wtFix = wtFix ∧
    (∀ g d h, wtFix.GHI = some g → wtFix.DNI = some d → wtFix.DHI = some h →
      ∀ i, i < wtFix.nrows →
        (nightAtI 1 g d h i && negAtI g d h i) = false ∧
        (dayAtI 1 g d h i && negAtI g d h i) = false) ∧
    (∀ i, i < wtFix.nrows → rowIsOutlier wcFix.z_thresh wtFix i = false) ∧
    SolarCleaner.clean wcFix wtFix = .ok wtFix := by
  have hstages : cleanStages wcFix wtFix = .ok (wtFix, wtFix) := by
    norm_num [cleanStages, dropEmptyColumns, dropColIf, dropColIf.naCount',
      zeroNightNegatives, nightMask, negMask, zipW3, vlt, vgt, applyFix, clip0,
      fixDaytimeNegatives, dayCore, dayMask, clipOutliers, outlierMask, orZip, exCol,
      exceedsCell, meanOf, varOf, someVals, keepCol, countFalse, countTrue, imputeMedian,
      fillna, medianOf, sortQ, insQ, engineerFeatures, hourify, monthify, rainCell,
      wtFix, wcFix, bind, Except.bind]
    rfl
  have hdrop : dropEmptyColumns 1 wtFix = wtFix := by
    norm_num [dropEmptyColumns, dropColIf, dropColIf.naCount', wtFix]
  have hnofix : ∀ g d h, wtFix.GHI = some g → wtFix.DNI = some d →
      wtFix.DHI = some h → ∀ i, i < wtFix.nrows →
        (nightAtI 1 g d h i && negAtI g d h i) = false ∧
        (dayAtI 1 g d h i && negAtI g d h i) = false := by
    intro g d h hg hd hh i hi
    rw [show wtFix.GHI = some [some 5, some 0] from rfl] at hg
    injection hg with hg
    subst hg
    rw [show wtFix.DNI = some [some 2, some 0] from rfl] at hd
    injection hd with hd
    subst hd
    rw [show wtFix.DHI = some [some 3, some 0] from rfl] at hh
    injection hh with hh
    subst hh
    have h2 : i < 2 := hi
    interval_cases i <;> exact ⟨by decide, by decide⟩
  have hnoout : ∀ i, i < wtFix.nrows → rowIsOutlier wcFix.z_thresh wtFix i = false := by
    intro i hi
    have h2 : i < 2 := hi
    interval_cases i <;>
      norm_num [rowIsOutlier, exceedsAt, exceedsCell, meanOf, varOf, someVals, cellAt,
        wtFix, wcFix]
  exact ⟨hstages, by decide, hdrop, hnofix, hnoout,
    clean_idempotent_on_cleaned wcFix wtFix wtFix wtFix hstages (by decide) hdrop
      hnofix hnoout⟩

/-- Cleaning is not idempotent even without new negatives or outliers: the
second pass drops the `Tamb` column of `wtImputeOut`, which imputation left
entirely missing. -/
theorem clean_not_idempotent_counterexample :
    SolarCleaner.clean wcImpute wtImpute = .ok wtImputeOut ∧
    SolarCleaner.clean wcImpute wtImputeOut = .ok wtImputeOut2 ∧
    wtImputeOut.Tamb ≠ wtImputeOut2.Tamb ∧
    (([0, 1, 2] : List ℕ).all (fun i => !(rowIsOutlier 1 wtImputeOut i))) = true ∧
    (([0, 1, 2] : List ℕ).all (fun i =>
      !(nightAtI 1 [some 0, some 0, some 0] [some 0, some 0, some 0]
          [some 0, some 0, some 0] i &&
        negAtI [some 0, some 0, some 0] [some 0, some 0, some 0]
          [some 0, some 0, some 0] i) &&
      !(dayAtI 1 [some 0, some 0, some 0] [some 0, some 0, some 0]
          [some 0, some 0, some 0] i &&
        negAtI [some 0, some 0, some 0] [some 0, some 0, some 0]
          [some 0, some 0, some 0] i))) = true := by
  refine ⟨?_, ?_, by decide, ?_, by decide⟩
  · norm_num [SolarCleaner.clean, cleanStages, dropEmptyColumns, dropColIf,
      dropColIf.naCount', zeroNightNegatives, nightMask, negMask, zipW3, vlt, vgt,
      applyFix, clip0, fixDaytimeNegatives, dayCore, dayMask, clipOutliers, outlierMask,
      orZip, exCol, exceedsCell, meanOf, varOf, someVals, keepCol, countFalse, countTrue,
      imputeMedian, fillna, medianOf, sortQ, insQ, engineerFeatures, hourify, monthify,
      rainCell, wtImpute, wtImputeOut, wcImpute, bind, Except.bind]
    rfl
  · norm_num [SolarCleaner.clean, cleanStages, dropEmptyColumns, dropColIf,
      dropColIf.naCount', zeroNightNegatives, nightMask, negMask, zipW3, vlt, vgt,
      applyFix, clip0, fixDaytimeNegatives, dayCore, dayMask, clipOutliers, outlierMask,
      orZip, exCol, exceedsCell, meanOf, varOf, someVals, keepCol, countFalse, countTrue,
      imputeMedian, fillna, medianOf, sortQ, insQ, engineerFeatures, hourify, monthify,
      rainCell, wtImputeOut, wtImputeOut2, wcImpute, bind, Except.bind]
    rfl
  · norm_num [rowIsOutlier, exceedsAt, exceedsCell, meanOf, varOf, someVals, cellAt,
      wtImputeOut]

theorem clean_pure_and_config_determined_witness :
    wcFix.z_thresh = wcFix.z_thresh ∧ wcFix.impute = wcFix.impute ∧
    wcFix.add_features = wcFix.add_features ∧
    cleanCall wcFix wtFix = (wtFix, wcFix, SolarCleaner.clean wcFix wtFix) :=
  ⟨rfl, rfl, rfl, clean_pure_and_config_determined wcFix wcFix wtFix rfl rfl rfl⟩

theorem clipOutliers_keeps_all_missing_rows_witness :
    wtAllMissing.WFb = true ∧ (1 : ℕ) < wtAllMissing.nrows ∧
    cellAt [some 5, none] 1 = none ∧
    (rowIsOutlier 1 wtAllMissing 1 = false ∧ 1 ∈ keptIdx 1 wtAllMissing ∧
      ∃ df2 cnt, clipOutliers 1 wtAllMissing = .ok (df2, cnt) ∧
        df2.GHI = some (sampleCells [some 5, none] (keptIdx 1 wtAllMissing)) ∧
        df2.nrows = (keptIdx 1 wtAllMissing).length) :=
  ⟨by decide, by decide, rfl,
    clipOutliers_keeps_all_missing_rows 1 wtAllMissing _ _ _ _ _ _ _ 1 (by decide)
      rfl rfl rfl rfl rfl rfl rfl (by decide) rfl rfl rfl rfl rfl rfl rfl⟩
